import Mathlib

/-!
# phosphor-pid-control: control loop scheduler and sensor builder

A shallow embedding of `pid/pidloop.cpp` (the self-rescheduling control loop)
and `sensors/builder.cpp` (the sensor builder), with the properties of the
design document stated and proved against it.

Modelling conventions

* Everything outside the loop that can change over time (the zone behind the
  `ZoneInterface` pointer, the boolean behind `isCanceling`, the global
  `loggingEnabled`, the steady clock) lives in one environment state `σ`.
  Zone operations are arbitrary transformers of `σ`, so an operation may take
  time (move the clock), change what the getters return, or set the flag.
* Every call made on the zone and on the timer is appended to a trace.
* `uint64_t` values are naturals below `2 ^ 64`; `+=` and `-=` reduce modulo
  `2 ^ 64`.
* `std::chrono` time points and durations are exact integers counted in
  nanoseconds; the limits of the library's 64-bit representation (beyond which
  C++ leaves the arithmetic undefined) are not modelled.
* `async_wait` stores the lambda's captures in the timer; `fire` is the
  io_context invoking the stored handler with an error code.
-/

namespace pid_control

/-! ## Machine integers and chrono -/

/-- Number of values of a `uint64_t`. -/
def UINT64_SIZE : Nat := 2 ^ 64

/-- Conversion of a natural number to `uint64_t`. -/
def toUInt64 (n : Nat) : Nat := n % UINT64_SIZE

/-- `a += b` on `uint64_t`. -/
def u64add (a b : Nat) : Nat := (a + b) % UINT64_SIZE

/-- `a -= b` on `uint64_t`. -/
def u64sub (a b : Nat) : Nat := (a + UINT64_SIZE - b % UINT64_SIZE) % UINT64_SIZE

/-- A `std::chrono::steady_clock::time_point`, in nanoseconds. -/
abbrev TimePoint := Int

/-- `std::chrono::milliseconds(n)` as a steady-clock duration (nanoseconds). -/
def milliseconds (n : Nat) : Int := (n : Int) * 1000000

/-! ## Events -/

/-- The calls the loop makes on its zone and on its timer. -/
inductive Event where
  | initializeLog
  | initializeCache
  | updateSensors
  | clearSetPoints
  | clearRPMCeilings
  | processThermals
  | determineMaxSetPointRequest
  | getCycleIntervalTime
  | getManualMode
  | updateFanTelemetry
  | getUpdateThermalsCycle
  | processFans
  | getFailSafeMode
  | writeLog (line : String)
  | expires_at (t : TimePoint)
  | async_wait
  deriving DecidableEq, Repr

/-- Whether the event is a call on the zone (as opposed to the timer). -/
def Event.isZoneOp : Event → Bool
  | .expires_at _ => false
  | .async_wait => false
  | _ => true

/-- Whether the event arms the timer (`expires_at`). -/
def Event.isArm : Event → Bool
  | .expires_at _ => true
  | _ => false

/-- The error code handed to the wait handler. -/
inductive ErrorCode where
  | success
  | operation_aborted
  | other (code : Nat)
  deriving DecidableEq, Repr

/-! ## The zone and its surroundings -/

/-- The methods of `ZoneInterface` that the loop calls, over an environment
state `σ`. The `const` getters read the state, the others transform it. -/
structure ZoneInterface (σ : Type) where
  initializeLog : σ → σ
  initializeCache : σ → σ
  updateSensors : σ → σ
  clearSetPoints : σ → σ
  clearRPMCeilings : σ → σ
  processThermals : σ → σ
  determineMaxSetPointRequest : σ → σ
  updateFanTelemetry : σ → σ
  processFans : σ → σ
  writeLog : String → σ → σ
  getCycleIntervalTime : σ → Nat
  getUpdateThermalsCycle : σ → Nat
  getManualMode : σ → Bool
  getFailSafeMode : σ → Bool

/-- What `pidControlLoop` reads besides its arguments: the zone, the boolean
behind `isCanceling`, the global `loggingEnabled` (declared in `pid/tuning.hpp`)
and `std::chrono::steady_clock::now()`. -/
structure Ambient (σ : Type) where
  zone : ZoneInterface σ
  isCanceling : σ → Bool
  loggingEnabled : σ → Bool
  now : σ → TimePoint

/-- Captures of the lambda handed to `async_wait` that are plain values. -/
structure Handler where
  cycleCnt : Nat
  msPerFanCycle : Nat
  deriving DecidableEq, Repr

/-- State of one loop: the environment, the timer (its expiry and the handler
waiting on it, if any) and the trace of calls made so far. -/
structure World (σ : Type) where
  env : σ
  expiry : TimePoint
  handler : Option Handler
  trace : List Event

/-- A state-changing call on the zone. -/
def call {σ : Type} (ev : Event) (f : σ → σ) (w : World σ) : World σ :=
  { w with env := f w.env, trace := w.trace ++ [ev] }

/-- A call of a `const` getter on the zone. -/
def query {σ : Type} (ev : Event) (w : World σ) : World σ :=
  { w with trace := w.trace ++ [ev] }

/-- `timer->expires_at(t)`: sets the expiry; any wait still pending is dropped. -/
def expires_at {σ : Type} (t : TimePoint) (w : World σ) : World σ :=
  { w with expiry := t, handler := none, trace := w.trace ++ [Event.expires_at t] }

/-- `timer->async_wait(handler)`. -/
def async_wait {σ : Type} (h : Handler) (w : World σ) : World σ :=
  { w with handler := some h, trace := w.trace ++ [Event.async_wait] }

/-! ## pid/pidloop.cpp -/

/-- The static helper `processThermals(zone)`. -/
def processThermals {σ : Type} (Z : ZoneInterface σ) (w : World σ) : World σ :=
  let w := call .updateSensors Z.updateSensors w
  let w := call .clearSetPoints Z.clearSetPoints w
  let w := call .clearRPMCeilings Z.clearRPMCeilings w
  let w := call .processThermals Z.processThermals w
  call .determineMaxSetPointRequest Z.determineMaxSetPointRequest w

/-- The `if (first)` block of `pidControlLoop`. -/
def initializing {σ : Type} (A : Ambient σ) (w : World σ) : World σ :=
  let w := if A.loggingEnabled w.env then call .initializeLog A.zone.initializeLog w else w
  let w := call .initializeCache A.zone.initializeCache w
  processThermals A.zone w

/-- The body of `pidControlLoop` up to and including `async_wait`. The lambda
itself is `timerCallback`. -/
def pidControlLoop {σ : Type} (A : Ambient σ) (w : World σ) (first : Bool)
    (cycleCnt : Nat) : World σ :=
  if A.isCanceling w.env then
    w
  else
    let w := if first then initializing A w else w
    let nextTime : TimePoint := if first then A.now w.env else w.expiry
    let msPerFanCycle := toUInt64 (A.zone.getCycleIntervalTime w.env)
    let w := query .getCycleIntervalTime w
    let nextTime := nextTime + milliseconds msPerFanCycle
    let w := expires_at nextTime w
    async_wait { cycleCnt := cycleCnt, msPerFanCycle := msPerFanCycle } w

/-- The formatted line `"," << zone->getFailSafeMode() << std::endl`. -/
def logLine (failSafe : Bool) : String :=
  "," ++ (if failSafe then "1" else "0") ++ "\n"

/-- The `if (loggingEnabled)` block of the lambda. -/
def logFailSafe {σ : Type} (A : Ambient σ) (w : World σ) : World σ :=
  if A.loggingEnabled w.env then
    let failSafe := A.zone.getFailSafeMode w.env
    let w := query .getFailSafeMode w
    call (.writeLog (logLine failSafe)) (A.zone.writeLog (logLine failSafe)) w
  else w

/-- The lambda handed to `async_wait`, with captures `h`. -/
def timerCallback {σ : Type} (A : Ambient σ) (h : Handler) (w : World σ)
    (ec : ErrorCode) : World σ :=
  if ec = ErrorCode.operation_aborted then
    w
  else
    let manual := A.zone.getManualMode w.env
    let w := query .getManualMode w
    if manual then
      pidControlLoop A w false h.cycleCnt
    else
      let w := call .updateFanTelemetry A.zone.updateFanTelemetry w
      let msPerThermalCycle := toUInt64 (A.zone.getUpdateThermalsCycle w.env)
      let w := query .getUpdateThermalsCycle w
      let thermal := decide (h.cycleCnt ≥ msPerThermalCycle)
      let cycleCnt := if thermal then u64sub h.cycleCnt msPerThermalCycle else h.cycleCnt
      let w := if thermal then processThermals A.zone w else w
      let w := call .processFans A.zone.processFans w
      let w := logFailSafe A w
      let cycleCnt := u64add cycleCnt h.msPerFanCycle
      pidControlLoop A w false cycleCnt

/-- The io_context completing the pending wait with error code `ec`: the stored
handler, if there is one, is taken out of the timer and invoked. -/
def fire {σ : Type} (A : Ambient σ) (w : World σ) (ec : ErrorCode) : World σ :=
  match w.handler with
  | none => w
  | some h => timerCallback A h { w with handler := none } ec

/-! ## Auxiliary definitions used to state properties of the loop -/

/-- The five zone calls of the static helper `processThermals`, in order. -/
def thermalPass : List Event :=
  [.updateSensors, .clearSetPoints, .clearRPMCeilings, .processThermals,
   .determineMaxSetPointRequest]

/-- The lambda from the `getManualMode` check up to (not including) its tail
call of `pidControlLoop`: the world at the tail call and the `cycleCnt` argument
passed to it. `timerCallback_eq` relates it to `timerCallback`. -/
def cycleBody {σ : Type} (A : Ambient σ) (h : Handler) (w : World σ) : World σ × Nat :=
  let manual := A.zone.getManualMode w.env
  let w := query .getManualMode w
  if manual then
    (w, h.cycleCnt)
  else
    let w := call .updateFanTelemetry A.zone.updateFanTelemetry w
    let msPerThermalCycle := toUInt64 (A.zone.getUpdateThermalsCycle w.env)
    let w := query .getUpdateThermalsCycle w
    let thermal := decide (h.cycleCnt ≥ msPerThermalCycle)
    let cycleCnt := if thermal then u64sub h.cycleCnt msPerThermalCycle else h.cycleCnt
    let w := if thermal then processThermals A.zone w else w
    let w := call .processFans A.zone.processFans w
    let w := logFailSafe A w
    (w, u64add cycleCnt h.msPerFanCycle)

/-- The events a later world has appended to the trace of an earlier one. -/
def newEvents {σ : Type} (before after : World σ) : List Event :=
  after.trace.drop before.trace.length

/-- The events of the `if (loggingEnabled)` block of the lambda, run in
environment `e`. -/
def logEvents {σ : Type} (A : Ambient σ) (e : σ) : List Event :=
  if A.loggingEnabled e then
    [.getFailSafeMode, .writeLog (logLine (A.zone.getFailSafeMode e))]
  else []

/-- What can happen to a loop from outside: the pending wait completes with an
error code, or the environment changes between two callbacks. -/
inductive Step (σ : Type) where
  | fire (ec : ErrorCode)
  | env (g : σ → σ)

/-- One outside step. -/
def step {σ : Type} (A : Ambient σ) (w : World σ) : Step σ → World σ
  | .fire ec => fire A w ec
  | .env g => { w with env := g w.env }

/-- A sequence of outside steps. -/
def run {σ : Type} (A : Ambient σ) (w : World σ) (steps : List (Step σ)) : World σ :=
  steps.foldl (step A) w

/-- A loop in steady automatic operation: never cancelled, never in manual
mode, with constant fan interval `f` and thermal interval `t` (milliseconds). -/
def Steady {σ : Type} (A : Ambient σ) (f t : Nat) : Prop :=
  (∀ s, A.isCanceling s = false) ∧ (∀ s, A.zone.getManualMode s = false) ∧
  (∀ s, A.zone.getCycleIntervalTime s = f) ∧ (∀ s, A.zone.getUpdateThermalsCycle s = t)

/-! ## A concrete environment, for evaluating the loop -/

/-- A zone whose getters read fields and whose operations each take one
millisecond of steady-clock time. -/
structure DemoEnv where
  manual : Bool
  canceling : Bool
  logging : Bool
  failSafe : Bool
  fanMs : Nat
  thermalMs : Nat
  clock : TimePoint
  deriving DecidableEq, Repr

/-- An operation of the demo zone: one millisecond passes. -/
def DemoEnv.tick (e : DemoEnv) : DemoEnv := { e with clock := e.clock + 1000000 }

/-- The demo zone. -/
def demoZone : ZoneInterface DemoEnv where
  initializeLog := DemoEnv.tick
  initializeCache := DemoEnv.tick
  updateSensors := DemoEnv.tick
  clearSetPoints := DemoEnv.tick
  clearRPMCeilings := DemoEnv.tick
  processThermals := DemoEnv.tick
  determineMaxSetPointRequest := DemoEnv.tick
  updateFanTelemetry := DemoEnv.tick
  processFans := DemoEnv.tick
  writeLog := fun _ => DemoEnv.tick
  getCycleIntervalTime := DemoEnv.fanMs
  getUpdateThermalsCycle := DemoEnv.thermalMs
  getManualMode := DemoEnv.manual
  getFailSafeMode := DemoEnv.failSafe

/-- The demo zone with its flag, logging switch and clock. -/
def demoAmbient : Ambient DemoEnv where
  zone := demoZone
  isCanceling := DemoEnv.canceling
  loggingEnabled := DemoEnv.logging
  now := DemoEnv.clock

/-- Fan interval 100 ms, thermal interval 250 ms, automatic mode, not
cancelled, logging off, clock at 5 ms. -/
def demoEnv : DemoEnv :=
  { manual := false, canceling := false, logging := false, failSafe := false,
    fanMs := 100, thermalMs := 250, clock := 5000000 }

/-- A world before the first call: nothing waits on the timer, empty trace. -/
def demoWorld (e : DemoEnv) : World DemoEnv :=
  { env := e, expiry := 0, handler := none, trace := [] }

/-- The demo loop started through the first call with `cycleCnt = 0`. -/
def demoStart : World DemoEnv := pidControlLoop demoAmbient (demoWorld demoEnv) true 0

/-- The demo loop after `n` successful timer firings. -/
def demoAfter : Nat → World DemoEnv
  | 0 => demoStart
  | n + 1 => fire demoAmbient (demoAfter n) ErrorCode.success

/-- A zone over a bare clock: every operation takes one millisecond, the fan
interval is always 100 ms, the thermal interval always 250 ms, never manual. -/
def steadyZone : ZoneInterface TimePoint where
  initializeLog := fun c => c + 1000000
  initializeCache := fun c => c + 1000000
  updateSensors := fun c => c + 1000000
  clearSetPoints := fun c => c + 1000000
  clearRPMCeilings := fun c => c + 1000000
  processThermals := fun c => c + 1000000
  determineMaxSetPointRequest := fun c => c + 1000000
  updateFanTelemetry := fun c => c + 1000000
  processFans := fun c => c + 1000000
  writeLog := fun _ c => c + 1000000
  getCycleIntervalTime := fun _ => 100
  getUpdateThermalsCycle := fun _ => 250
  getManualMode := fun _ => false
  getFailSafeMode := fun _ => false

/-- The steady zone, never cancelled, logging off. -/
def steadyAmbient : Ambient TimePoint where
  zone := steadyZone
  isCanceling := fun _ => false
  loggingEnabled := fun _ => false
  now := fun c => c

/-- A world of the steady zone before the first call. -/
def steadyWorld : World TimePoint :=
  { env := 0, expiry := 0, handler := none, trace := [] }

/-- The demo environment in manual mode. -/
def demoManualEnv : DemoEnv := { demoEnv with manual := true }

/-- The demo environment with the cancel flag set. -/
def demoCancelEnv : DemoEnv := { demoEnv with canceling := true }

/-- A world in which the lambda has just been taken out of the timer: expiry
at 100 ms, the clock at 103 ms. -/
def demoFiring (e : DemoEnv) : World DemoEnv :=
  { env := { e with clock := 103000000 }, expiry := 100000000, handler := none, trace := [] }

/-- Captures of the demo lambda: counter 300, fan interval 100. -/
def demoHandler : Handler := { cycleCnt := 300, msPerFanCycle := 100 }

/-- The demo zone with fan interval 2 ms and thermal interval 1 ms. -/
def demoWrapEnv : DemoEnv := { demoEnv with fanMs := 2, thermalMs := 1 }

/-- Captures with the counter at the largest `uint64_t` value. -/
def demoWrapHandler : Handler := { cycleCnt := 18446744073709551615, msPerFanCycle := 2 }

/-- The environment in which the `if (loggingEnabled)` block of a non-manual
firing runs: after `updateFanTelemetry`, the thermal pass if it is due, and
`processFans`. -/
def envAfterFans {σ : Type} (A : Ambient σ) (h : Handler) (w : World σ) : σ :=
  let e := A.zone.updateFanTelemetry w.env
  let msPerThermalCycle := toUInt64 (A.zone.getUpdateThermalsCycle e)
  let e := if msPerThermalCycle ≤ h.cycleCnt then
      A.zone.determineMaxSetPointRequest (A.zone.processThermals (A.zone.clearRPMCeilings
        (A.zone.clearSetPoints (A.zone.updateSensors e))))
    else e
  A.zone.processFans e

/-- The operations of one logical cycle listed in the zone contract:
`updateFanTelemetry`, the five calls of the thermal pass, `processFans` and
`getFailSafeMode`. -/
def Event.isCycleOperation : Event → Bool
  | .updateFanTelemetry => true
  | .updateSensors => true
  | .clearSetPoints => true
  | .clearRPMCeilings => true
  | .processThermals => true
  | .determineMaxSetPointRequest => true
  | .processFans => true
  | .getFailSafeMode => true
  | _ => false

/-- Whether the event is a `writeLog` call. -/
def Event.isWriteLog : Event → Bool
  | .writeLog _ => true
  | _ => false

/-- The demo environment with logging on and the zone in fail-safe mode. -/
def demoLogEnv : DemoEnv := { demoEnv with logging := true, failSafe := true }

/-- The outside steps of `gs.length` successful timer firings, the environment
changing by `g` before each of them. -/
def autoSteps {σ : Type} : List (σ → σ) → List (Step σ)
  | [] => []
  | g :: gs => Step.env g :: Step.fire ErrorCode.success :: autoSteps gs

/-- Every wait pending on the timer carries a counter below `t + f` and the fan
interval `f`. -/
def CountBounded {σ : Type} (f t : Nat) (w : World σ) : Prop :=
  ∀ h : Handler, w.handler = some h → h.cycleCnt < t + f ∧ h.msPerFanCycle = f

/-- Whether every timer completion in `steps`, run from `w`, is a non-aborted
firing that finds the zone in manual mode and the cancel flag false. -/
def allManual {σ : Type} (A : Ambient σ) : World σ → List (Step σ) → Bool
  | _, [] => true
  | w, Step.fire ec :: rest =>
    decide (ec ≠ ErrorCode.operation_aborted) && A.zone.getManualMode w.env
      && !A.isCanceling w.env && allManual A (fire A w ec) rest
  | w, Step.env g :: rest => allManual A { w with env := g w.env } rest

/-- The demo zone with fan interval `2 ^ 64 - 2` ms and thermal interval
`2 ^ 64 - 1` ms. -/
def demoBigEnv : DemoEnv :=
  { demoEnv with fanMs := 18446744073709551614, thermalMs := 18446744073709551615 }

/-- The demo loop on `demoBigEnv`, started through the first call with
`cycleCnt = 0`, after `n` successful timer firings. -/
def demoBigAfter : Nat → World DemoEnv
  | 0 => pidControlLoop demoAmbient (demoWorld demoBigEnv) true 0
  | n + 1 => fire demoAmbient (demoBigAfter n) ErrorCode.success

/-! ## failsafeloggers/builder.hpp -/

end pid_control

namespace sensors

/-! ## sensors/builder.cpp -/

/-- The `IOInterfaceType` enumeration (declared in `interfaces.hpp`): the three
enumerators the builder names, and `other` for every enumerator it leaves to
the `default` label. -/
inductive IOInterfaceType where
  | DBUSPASSIVE
  | EXTERNAL
  | SYSFS
  | other (tag : Nat)
  deriving DecidableEq, Repr

/-- The fields of `struct sensor` (declared in `conf.hpp`) that the builder reads. -/
structure sensor where
  type : String
  readpath : String
  writepath : String
  min : Int
  max : Int
  timeout : Int
  deriving DecidableEq, Repr

/-- The two buses owned by the `SensorManager`. -/
inductive Bus where
  | HostSensorBus
  | PassiveListeningBus
  deriving DecidableEq, Repr

/-- The `ReadInterface` objects the builder constructs, with their constructor
arguments. -/
inductive ReadInterface where
  | DbusPassive (bus : Bus) (type : String) (name : String)
  | SysFsRead (readpath : String)
  | WriteOnly
  deriving DecidableEq, Repr

/-- The `WriteInterface` objects the builder constructs, with their constructor
arguments. -/
inductive WriteInterface where
  | SysFsWritePercent (writepath : String) (min : Int) (max : Int)
  | SysFsWrite (writepath : String) (min : Int) (max : Int)
  | ReadOnlyNoExcept
  deriving DecidableEq, Repr

/-- The sensor objects the builder constructs, with their constructor
arguments. A `std::unique_ptr` that was never assigned is `none`. -/
inductive Sensor where
  | PluggableSensor (name : String) (timeout : Int) (ri : Option ReadInterface)
      (wi : Option WriteInterface)
  | HostSensor_CreateTemp (name : String) (timeout : Int) (bus : Bus)
      (readpath : String) (defer : Bool)
  deriving DecidableEq, Repr

/-- One `addSensor(type, name, sensor)` call. -/
structure Registration where
  type : String
  name : String
  sensor : Sensor
  deriving DecidableEq, Repr

/-- Modelled from the spec: the `SensorManager` class (`sensors/manager.hpp`), a
registry owning every built sensor, indexed by (category, name). It is kept as
the sequence of `addSensor` calls received. -/
structure SensorManager where
  sensors : List Registration
  deriving DecidableEq, Repr

/-- `mgmr.addSensor(type, name, sensor)`. -/
def SensorManager.addSensor (mgmr : SensorManager) (type name : String) (s : Sensor) :
    SensorManager :=
  { sensors := mgmr.sensors ++ [{ type := type, name := name, sensor := s }] }

/-- The constant `deferSignals`. -/
def deferSignals : Bool := true

/-- The `switch (rtype)` of `BuildSensors`: the value of `ri` after it. -/
def readInterface (rtype : IOInterfaceType) (name : String) (info : sensor) :
    Option ReadInterface :=
  match rtype with
  | .DBUSPASSIVE => some (.DbusPassive .PassiveListeningBus info.type name)
  | .EXTERNAL => none
  | .SYSFS => some (.SysFsRead info.readpath)
  | .other _ => some .WriteOnly

/-- The `switch (wtype)` of the `fan` branch: the value of `wi` after it. -/
def fanWriteInterface (wtype : IOInterfaceType) (info : sensor) : Option WriteInterface :=
  match wtype with
  | .SYSFS =>
    if info.max > 0 then
      some (.SysFsWritePercent info.writepath info.min info.max)
    else
      some (.SysFsWrite info.writepath info.min info.max)
  | _ => some .ReadOnlyNoExcept

/-- The body of the `for` loop of `BuildSensors`, for the map entry `it`.
`GetReadInterfaceType` and `GetWriteInterfaceType` (declared in `util.hpp`) are
parameters. The diagnostic output to `std::cerr` is left out. -/
def buildSensor (GetReadInterfaceType GetWriteInterfaceType : String → IOInterfaceType)
    (mgmr : SensorManager) (it : String × sensor) : SensorManager :=
  let name := it.1
  let info := it.2
  let rtype := GetReadInterfaceType info.readpath
  let wtype := GetWriteInterfaceType info.writepath
  let ri := readInterface rtype name info
  if info.type = "fan" then
    let wi := fanWriteInterface wtype info
    mgmr.addSensor info.type name (.PluggableSensor name info.timeout ri wi)
  else if info.type = "temp" ∨ info.type = "margin" then
    if IOInterfaceType.EXTERNAL = rtype then
      mgmr.addSensor info.type name
        (.HostSensor_CreateTemp name info.timeout .HostSensorBus info.readpath deferSignals)
    else
      let wi : Option WriteInterface := some .ReadOnlyNoExcept
      mgmr.addSensor info.type name (.PluggableSensor name info.timeout ri wi)
  else
    mgmr

/-- `BuildSensors(config)`: the map is given as its entries in iteration order. -/
def BuildSensors (GetReadInterfaceType GetWriteInterfaceType : String → IOInterfaceType)
    (config : List (String × sensor)) : SensorManager :=
  config.foldl (buildSensor GetReadInterfaceType GetWriteInterfaceType) { sensors := [] }

/-- The write interface a built sensor was constructed with, if any: a host
sensor is created without one. -/
def Sensor.writeInterface : Sensor → Option WriteInterface
  | .PluggableSensor _ _ _ wi => wi
  | .HostSensor_CreateTemp _ _ _ _ _ => none

/-- A path-scheme classifier for evaluating the builder: the empty path has no
scheme, `dbus` is passive, `external` is external, any other path is a device
file. -/
def demoScheme (path : String) : IOInterfaceType :=
  if path = "" then .other 0
  else if path = "dbus" then .DBUSPASSIVE
  else if path = "external" then .EXTERNAL
  else .SYSFS

/-- A configuration with a scaled fan, a raw fan, a read-only fan, a polled
temperature with a write path, an external margin, an external temperature and
an unknown category. -/
def demoConfig : List (String × sensor) :=
  [("fan0", { type := "fan", readpath := "/sys/fan0_input", writepath := "/sys/pwm0",
              min := 0, max := 255, timeout := 0 }),
   ("fan1", { type := "fan", readpath := "/sys/fan1_input", writepath := "/sys/pwm1",
              min := 0, max := 0, timeout := 0 }),
   ("fan2", { type := "fan", readpath := "dbus", writepath := "",
              min := 0, max := 255, timeout := 0 }),
   ("temp0", { type := "temp", readpath := "/sys/temp0_input", writepath := "/sys/pwm0",
               min := 0, max := 255, timeout := 2 }),
   ("margin0", { type := "margin", readpath := "external",
                 writepath := "/sys/pwm0", min := 0, max := 255, timeout := 3 }),
   ("temp1", { type := "temp", readpath := "external",
               writepath := "", min := 0, max := 0, timeout := 4 }),
   ("volt0", { type := "voltage", readpath := "/sys/in0_input", writepath := "",
               min := 0, max := 0, timeout := 0 })]

/-- A configuration with one fan whose read path is externally flagged. -/
def demoExternalFanConfig : List (String × sensor) :=
  [("fan3", { type := "fan", readpath := "external", writepath := "/sys/pwm3",
              min := 0, max := 255, timeout := 0 })]

/-- The read interface a built sensor was constructed with, if any: a host
sensor is created without one. -/
def Sensor.readInterface : Sensor → Option ReadInterface
  | .PluggableSensor _ _ ri _ => ri
  | .HostSensor_CreateTemp _ _ _ _ _ => none

/-- The (category, name) key of an `addSensor` call. -/
def Registration.key (r : Registration) : String × String := (r.type, r.name)

/-- Whether the category is one the builder registers: `fan`, `temp` or
`margin`. -/
def isRegisteredType (type : String) : Bool :=
  decide (type = "fan" ∨ type = "temp" ∨ type = "margin")

/-- An sd-bus call a test expects (`test/helpers.hpp`). -/
inductive SdBusCall where
  | sd_bus_emit_object_added (path : String)
  | sd_bus_emit_properties_changed_strv (path : String) (intf : String) (name : String)
  deriving DecidableEq, Repr

/-- `SetupDbusObject(sdbus_mock, defer, path, intf, properties, index)` of
`test/helpers.hpp`: the calls it tells the mock to expect, in order. The
object-added announcement is expected only when `defer` is false; one
properties-changed call is expected per listed property. -/
def SetupDbusObject (defer : Bool) (path intf : String) (properties : List String) :
    List SdBusCall :=
  (if !defer then [SdBusCall.sd_bus_emit_object_added path] else [])
    ++ properties.map (fun p => SdBusCall.sd_bus_emit_properties_changed_strv path intf p)

end sensors

/-! # Properties of the control loop -/

namespace pid_control

/-! ## Shared lemmas -/

theorem pidControlLoop_canceled {σ : Type} (A : Ambient σ) (w : World σ) (first : Bool)
    (cycleCnt : Nat) (hc : A.isCanceling w.env = true) :
    pidControlLoop A w first cycleCnt = w := by
  simp [pidControlLoop, hc]

theorem pidControlLoop_rearm {σ : Type} (A : Ambient σ) (w : World σ) (cycleCnt : Nat)
    (hc : A.isCanceling w.env = false) :
    pidControlLoop A w false cycleCnt =
      { env := w.env
        expiry := w.expiry + milliseconds (toUInt64 (A.zone.getCycleIntervalTime w.env))
        handler := some { cycleCnt := cycleCnt,
                          msPerFanCycle := toUInt64 (A.zone.getCycleIntervalTime w.env) }
        trace := w.trace ++ [Event.getCycleIntervalTime,
          Event.expires_at
            (w.expiry + milliseconds (toUInt64 (A.zone.getCycleIntervalTime w.env))),
          Event.async_wait] } := by
  simp [pidControlLoop, hc, query, expires_at, async_wait]

theorem timerCallback_eq {σ : Type} (A : Ambient σ) (h : Handler) (w : World σ)
    (ec : ErrorCode) :
    timerCallback A h w ec =
      if ec = ErrorCode.operation_aborted then w
      else pidControlLoop A (cycleBody A h w).1 false (cycleBody A h w).2 := by
  unfold timerCallback cycleBody
  by_cases hec : ec = ErrorCode.operation_aborted
  · simp [hec]
  · by_cases hm : A.zone.getManualMode w.env = true
    · simp [hec, hm]
    · simp [hec, hm]

theorem newEvents_append {σ : Type} (w w' : World σ) (evs : List Event)
    (h : w'.trace = w.trace ++ evs) : newEvents w w' = evs := by
  simp [newEvents, h]

theorem newEvents_self {σ : Type} (w : World σ) : newEvents w w = [] := by
  simp [newEvents]

@[simp] theorem call_expiry {σ : Type} (ev : Event) (f : σ → σ) (w : World σ) :
    (call ev f w).expiry = w.expiry := rfl

@[simp] theorem call_handler {σ : Type} (ev : Event) (f : σ → σ) (w : World σ) :
    (call ev f w).handler = w.handler := rfl

@[simp] theorem call_trace {σ : Type} (ev : Event) (f : σ → σ) (w : World σ) :
    (call ev f w).trace = w.trace ++ [ev] := rfl

@[simp] theorem call_env {σ : Type} (ev : Event) (f : σ → σ) (w : World σ) :
    (call ev f w).env = f w.env := rfl

@[simp] theorem query_expiry {σ : Type} (ev : Event) (w : World σ) :
    (query ev w).expiry = w.expiry := rfl

@[simp] theorem query_handler {σ : Type} (ev : Event) (w : World σ) :
    (query ev w).handler = w.handler := rfl

@[simp] theorem query_trace {σ : Type} (ev : Event) (w : World σ) :
    (query ev w).trace = w.trace ++ [ev] := rfl

@[simp] theorem query_env {σ : Type} (ev : Event) (w : World σ) :
    (query ev w).env = w.env := rfl

@[simp] theorem processThermals_expiry {σ : Type} (Z : ZoneInterface σ) (w : World σ) :
    (processThermals Z w).expiry = w.expiry := rfl

@[simp] theorem processThermals_handler {σ : Type} (Z : ZoneInterface σ) (w : World σ) :
    (processThermals Z w).handler = w.handler := rfl

@[simp] theorem processThermals_trace {σ : Type} (Z : ZoneInterface σ) (w : World σ) :
    (processThermals Z w).trace = w.trace ++ thermalPass := by
  simp [processThermals, thermalPass]

@[simp] theorem logFailSafe_expiry {σ : Type} (A : Ambient σ) (w : World σ) :
    (logFailSafe A w).expiry = w.expiry := by
  unfold logFailSafe; split <;> rfl

@[simp] theorem logFailSafe_handler {σ : Type} (A : Ambient σ) (w : World σ) :
    (logFailSafe A w).handler = w.handler := by
  unfold logFailSafe; split <;> rfl

@[simp] theorem logFailSafe_trace {σ : Type} (A : Ambient σ) (w : World σ) :
    (logFailSafe A w).trace = w.trace ++ logEvents A w.env := by
  unfold logFailSafe logEvents; split <;> simp

theorem cycleBody_expiry {σ : Type} (A : Ambient σ) (h : Handler) (w : World σ) :
    (cycleBody A h w).1.expiry = w.expiry ∧ (cycleBody A h w).1.handler = w.handler := by
  unfold cycleBody
  simp only []
  split_ifs <;> simp

/-! ## C1 -/

theorem u64sub_of_le (c t : Nat) (hc : c < UINT64_SIZE) (ht : t ≤ c) : u64sub c t = c - t := by
  unfold u64sub
  have ht' : t % UINT64_SIZE = t := Nat.mod_eq_of_lt (lt_of_le_of_lt ht hc)
  rw [ht']
  have : c + UINT64_SIZE - t = (c - t) + UINT64_SIZE := by omega
  rw [this, Nat.add_mod_right]
  exact Nat.mod_eq_of_lt (by omega)

theorem cycleBody_manual {σ : Type} (A : Ambient σ) (h : Handler) (w : World σ)
    (hm : A.zone.getManualMode w.env = true) :
    cycleBody A h w = (query Event.getManualMode w, h.cycleCnt) := by
  simp [cycleBody, hm]

theorem cycleBody_counter {σ : Type} (A : Ambient σ) (h : Handler) (w : World σ)
    (hm : A.zone.getManualMode w.env = false) :
    (cycleBody A h w).2 =
      u64add
        (if toUInt64 (A.zone.getUpdateThermalsCycle (A.zone.updateFanTelemetry w.env))
            ≤ h.cycleCnt
         then u64sub h.cycleCnt
            (toUInt64 (A.zone.getUpdateThermalsCycle (A.zone.updateFanTelemetry w.env)))
         else h.cycleCnt)
        h.msPerFanCycle := by
  simp [cycleBody, hm]

theorem cycleBody_trace {σ : Type} (A : Ambient σ) (h : Handler) (w : World σ)
    (hm : A.zone.getManualMode w.env = false) :
    ∃ e : σ, (cycleBody A h w).1.trace =
      w.trace ++ ([Event.getManualMode, Event.updateFanTelemetry, Event.getUpdateThermalsCycle]
        ++ (if toUInt64 (A.zone.getUpdateThermalsCycle (A.zone.updateFanTelemetry w.env))
              ≤ h.cycleCnt then thermalPass else [])
        ++ [Event.processFans] ++ logEvents A e) := by
  unfold cycleBody
  simp only [hm, Bool.false_eq_true, if_false]
  by_cases ht : toUInt64 (A.zone.getUpdateThermalsCycle (A.zone.updateFanTelemetry w.env))
      ≤ h.cycleCnt
  · refine ⟨(call Event.processFans A.zone.processFans (processThermals A.zone
      (query Event.getUpdateThermalsCycle (call Event.updateFanTelemetry
        A.zone.updateFanTelemetry (query Event.getManualMode w))))).env, ?_⟩
    simp [ht]
  · refine ⟨A.zone.processFans (A.zone.updateFanTelemetry w.env), ?_⟩
    simp [ht]

theorem pidControlLoop_events {σ : Type} (A : Ambient σ) (w : World σ) (cycleCnt : Nat) :
    (pidControlLoop A w false cycleCnt).trace = w.trace ++
      (if A.isCanceling w.env then []
       else [Event.getCycleIntervalTime,
             Event.expires_at
               (w.expiry + milliseconds (toUInt64 (A.zone.getCycleIntervalTime w.env))),
             Event.async_wait]) := by
  by_cases hc : A.isCanceling w.env = true
  · simp [pidControlLoop_canceled A w false cycleCnt hc, hc]
  · have hc' : A.isCanceling w.env = false := by simpa using hc
    simp [pidControlLoop_rearm A w cycleCnt hc', hc']

theorem timerCallback_events {σ : Type} (A : Ambient σ) (h : Handler) (w : World σ)
    (ec : ErrorCode) (hec : ec ≠ ErrorCode.operation_aborted)
    (hm : A.zone.getManualMode w.env = false) :
    ∃ e : σ, newEvents w (timerCallback A h w ec) =
      [Event.getManualMode, Event.updateFanTelemetry, Event.getUpdateThermalsCycle]
        ++ (if toUInt64 (A.zone.getUpdateThermalsCycle (A.zone.updateFanTelemetry w.env))
              ≤ h.cycleCnt then thermalPass else [])
        ++ [Event.processFans] ++ logEvents A e
        ++ (if A.isCanceling (cycleBody A h w).1.env then []
            else [Event.getCycleIntervalTime,
                  Event.expires_at (w.expiry + milliseconds
                    (toUInt64 (A.zone.getCycleIntervalTime (cycleBody A h w).1.env))),
                  Event.async_wait]) := by
  obtain ⟨e, he⟩ := cycleBody_trace A h w hm
  refine ⟨e, ?_⟩
  apply newEvents_append
  rw [timerCallback_eq, if_neg hec, pidControlLoop_events, he, (cycleBody_expiry A h w).1]
  simp

/-- C2, as stated, fails when the sum leaves the range of `uint64_t`: with
counter `2 ^ 64 - 1`, thermal interval 1 and fan interval 2 the thermal pass
runs, the counter becomes `2 ^ 64 - 2`, and the counter handed to the next
cycle is 0, not `2 ^ 64 - 2 + 2`. -/
theorem cycle_counter_wraps :
    demoAmbient.zone.getManualMode (demoWorld demoWrapEnv).env = false ∧
    Event.processThermals ∈ newEvents (demoWorld demoWrapEnv)
      (timerCallback demoAmbient demoWrapHandler (demoWorld demoWrapEnv) ErrorCode.success) ∧
    (timerCallback demoAmbient demoWrapHandler (demoWorld demoWrapEnv)
      ErrorCode.success).handler = some { cycleCnt := 0, msPerFanCycle := 2 } ∧
    (cycleBody demoAmbient demoWrapHandler (demoWorld demoWrapEnv)).2
      ≠ (demoWrapHandler.cycleCnt - 1) + demoWrapHandler.msPerFanCycle := by
  decide

/-- C2 (amended). Phase preservation. In a non-manual, non-aborted firing with
captured counter `c` (a `uint64_t`) and thermal interval `t` (the value
`getUpdateThermalsCycle()` returns in that firing), each call of the thermal
pass occurs in the firing if and only if `c ≥ t`, and then the whole pass occurs
in order; the counter after the test is `c - t` when the pass runs and `c`
otherwise; the counter handed to the next cycle is that value plus the captured
fan interval reduced modulo `2 ^ 64`, which is the exact sum whenever the sum is
below `2 ^ 64`; and when the timer is re-armed the new handler carries exactly
that counter. -/
theorem cycle_phase_preservation {σ : Type} (A : Ambient σ) (h : Handler) (w : World σ)
    (ec : ErrorCode) (hec : ec ≠ ErrorCode.operation_aborted)
    (hm : A.zone.getManualMode w.env = false) (hc : h.cycleCnt < UINT64_SIZE) :
    (∀ ev ∈ thermalPass, (ev ∈ newEvents w (timerCallback A h w ec) ↔
        toUInt64 (A.zone.getUpdateThermalsCycle (A.zone.updateFanTelemetry w.env))
          ≤ h.cycleCnt)) ∧
    (toUInt64 (A.zone.getUpdateThermalsCycle (A.zone.updateFanTelemetry w.env)) ≤ h.cycleCnt →
        thermalPass <:+: newEvents w (timerCallback A h w ec)) ∧
    (cycleBody A h w).2 =
      ((if toUInt64 (A.zone.getUpdateThermalsCycle (A.zone.updateFanTelemetry w.env))
            ≤ h.cycleCnt
        then h.cycleCnt
          - toUInt64 (A.zone.getUpdateThermalsCycle (A.zone.updateFanTelemetry w.env))
        else h.cycleCnt) + h.msPerFanCycle) % UINT64_SIZE ∧
    ((if toUInt64 (A.zone.getUpdateThermalsCycle (A.zone.updateFanTelemetry w.env))
            ≤ h.cycleCnt
        then h.cycleCnt
          - toUInt64 (A.zone.getUpdateThermalsCycle (A.zone.updateFanTelemetry w.env))
        else h.cycleCnt) + h.msPerFanCycle < UINT64_SIZE →
      (cycleBody A h w).2 =
        (if toUInt64 (A.zone.getUpdateThermalsCycle (A.zone.updateFanTelemetry w.env))
            ≤ h.cycleCnt
        then h.cycleCnt
          - toUInt64 (A.zone.getUpdateThermalsCycle (A.zone.updateFanTelemetry w.env))
        else h.cycleCnt) + h.msPerFanCycle) ∧
    (A.isCanceling (cycleBody A h w).1.env = false →
      (timerCallback A h w ec).handler =
        some { cycleCnt := (cycleBody A h w).2,
               msPerFanCycle :=
                 toUInt64 (A.zone.getCycleIntervalTime (cycleBody A h w).1.env) }) := by
  have hcnt : (cycleBody A h w).2 =
      ((if toUInt64 (A.zone.getUpdateThermalsCycle (A.zone.updateFanTelemetry w.env))
            ≤ h.cycleCnt
        then h.cycleCnt
          - toUInt64 (A.zone.getUpdateThermalsCycle (A.zone.updateFanTelemetry w.env))
        else h.cycleCnt) + h.msPerFanCycle) % UINT64_SIZE := by
    rw [cycleBody_counter A h w hm]
    by_cases ht : toUInt64 (A.zone.getUpdateThermalsCycle (A.zone.updateFanTelemetry w.env))
        ≤ h.cycleCnt
    · simp only [ht, if_true, u64sub_of_le _ _ hc ht]
      rfl
    · simp only [ht, if_false]
      rfl
  obtain ⟨e, he⟩ := timerCallback_events A h w ec hec hm
  refine ⟨?_, ?_, hcnt, ?_, ?_⟩
  · intro ev hev
    rw [he]
    by_cases ht : toUInt64 (A.zone.getUpdateThermalsCycle (A.zone.updateFanTelemetry w.env))
        ≤ h.cycleCnt
    · simp only [ht, if_true, iff_true]
      simp [hev]
    · simp only [ht, if_false, iff_false]
      unfold logEvents
      simp only [thermalPass, List.mem_cons, List.mem_singleton, List.not_mem_nil,
        or_false] at hev
      rcases hev with rfl | rfl | rfl | rfl | rfl <;>
        split_ifs <;> simp
  · intro ht
    rw [he]
    simp only [ht, if_true]
    exact ⟨[Event.getManualMode, Event.updateFanTelemetry, Event.getUpdateThermalsCycle],
      [Event.processFans] ++ logEvents A e
        ++ (if A.isCanceling (cycleBody A h w).1.env then []
            else [Event.getCycleIntervalTime,
                  Event.expires_at (w.expiry + milliseconds
                    (toUInt64 (A.zone.getCycleIntervalTime (cycleBody A h w).1.env))),
                  Event.async_wait]), by simp⟩
  · intro hlt
    rw [hcnt]
    exact Nat.mod_eq_of_lt hlt
  · intro hcan
    rw [timerCallback_eq, if_neg hec, pidControlLoop_rearm A _ _ hcan]

/-- Witness for C2 (amended): the demo zone at counter 300 with thermal interval
250 and fan interval 100. -/
theorem cycle_phase_preservation_witness :
    ErrorCode.success ≠ ErrorCode.operation_aborted ∧
    demoAmbient.zone.getManualMode (demoWorld demoEnv).env = false ∧
    (300 : Nat) < UINT64_SIZE ∧
    (cycleBody demoAmbient { cycleCnt := 300, msPerFanCycle := 100 }
      (demoWorld demoEnv)).2 = ((if toUInt64 250 ≤ 300 then 300 - toUInt64 250 else 300)
        + 100) % UINT64_SIZE :=
  ⟨by decide, by decide, by decide,
   (cycle_phase_preservation demoAmbient { cycleCnt := 300, msPerFanCycle := 100 }
    (demoWorld demoEnv) ErrorCode.success (by decide) (by decide) (by decide)).2.2.1⟩

/-! ## C3 -/

theorem initializing_trace {σ : Type} (A : Ambient σ) (w : World σ) :
    (initializing A w).trace = w.trace ++
      ((if A.loggingEnabled w.env then [Event.initializeLog] else [])
        ++ [Event.initializeCache] ++ thermalPass) := by
  unfold initializing
  by_cases hl : A.loggingEnabled w.env = true <;> simp [hl]

theorem pidControlLoop_first {σ : Type} (A : Ambient σ) (w : World σ) (cycleCnt : Nat)
    (hc : A.isCanceling w.env = false) :
    pidControlLoop A w true cycleCnt =
      { env := (initializing A w).env
        expiry := A.now (initializing A w).env
          + milliseconds (toUInt64 (A.zone.getCycleIntervalTime (initializing A w).env))
        handler := some { cycleCnt := cycleCnt,
                          msPerFanCycle :=
                            toUInt64 (A.zone.getCycleIntervalTime (initializing A w).env) }
        trace := w.trace ++
          ((if A.loggingEnabled w.env then [Event.initializeLog] else [])
            ++ [Event.initializeCache] ++ thermalPass
            ++ [Event.getCycleIntervalTime,
                Event.expires_at (A.now (initializing A w).env
                  + milliseconds
                      (toUInt64 (A.zone.getCycleIntervalTime (initializing A w).env))),
                Event.async_wait]) } := by
  simp [pidControlLoop, hc, query, expires_at, async_wait, initializing_trace]

theorem thermal_mem_iff {σ : Type} (A : Ambient σ) (e : σ) (P : Prop) [Decidable P]
    (tail : List Event)
    (htail : tail = [] ∨ ∃ d, tail = [Event.getCycleIntervalTime, Event.expires_at d,
      Event.async_wait])
    (ev : Event) (hev : ev ∈ thermalPass) :
    ev ∈ [Event.getManualMode, Event.updateFanTelemetry, Event.getUpdateThermalsCycle]
        ++ (if P then thermalPass else []) ++ [Event.processFans] ++ logEvents A e ++ tail
      ↔ P := by
  by_cases hP : P
  · simp [hP, hev]
  · simp only [hP, if_false, iff_false]
    unfold logEvents
    simp only [thermalPass, List.mem_cons, List.mem_singleton, List.not_mem_nil,
      or_false] at hev
    rcases htail with rfl | ⟨d, rfl⟩ <;>
      rcases hev with rfl | rfl | rfl | rfl | rfl <;>
        split_ifs <;> simp

theorem toUInt64_of_lt (n : Nat) (h : n < UINT64_SIZE) : toUInt64 n = n :=
  Nat.mod_eq_of_lt h

theorem fire_steady {σ : Type} (A : Ambient σ) (f t : Nat) (hS : Steady A f t)
    (hf : f < UINT64_SIZE) (ht : t < UINT64_SIZE) (w : World σ) (c : Nat)
    (hw : w.handler = some { cycleCnt := c, msPerFanCycle := f }) (ec : ErrorCode)
    (hec : ec ≠ ErrorCode.operation_aborted) :
    (fire A w ec).handler
        = some { cycleCnt := u64add (if t ≤ c then u64sub c t else c) f,
                 msPerFanCycle := f } ∧
    (fire A w ec).expiry = w.expiry + milliseconds f ∧
    ∃ e : σ, newEvents w (fire A w ec) =
      [Event.getManualMode, Event.updateFanTelemetry, Event.getUpdateThermalsCycle]
        ++ (if t ≤ c then thermalPass else []) ++ [Event.processFans] ++ logEvents A e
        ++ [Event.getCycleIntervalTime, Event.expires_at (w.expiry + milliseconds f),
            Event.async_wait] := by
  obtain ⟨hcan, hman, hfan, hth⟩ := hS
  have hfire : fire A w ec
      = timerCallback A { cycleCnt := c, msPerFanCycle := f } { w with handler := none } ec := by
    simp [fire, hw]
  have hm : A.zone.getManualMode ({ w with handler := none } : World σ).env = false := hman _
  obtain ⟨e, he⟩ := timerCallback_events A { cycleCnt := c, msPerFanCycle := f }
    { w with handler := none } ec hec hm
  have hcnt := cycleBody_counter A { cycleCnt := c, msPerFanCycle := f }
    { w with handler := none } hm
  simp only [hth, hfan, hcan, toUInt64_of_lt t ht, toUInt64_of_lt f hf, Bool.false_eq_true,
    if_false] at he hcnt
  refine ⟨?_, ?_, e, ?_⟩
  · rw [hfire, timerCallback_eq, if_neg hec, pidControlLoop_rearm A _ _ (hcan _), hcnt]
    simp [hfan, toUInt64_of_lt f hf]
  · rw [hfire, timerCallback_eq, if_neg hec, pidControlLoop_rearm A _ _ (hcan _)]
    simp [hfan, toUInt64_of_lt f hf, (cycleBody_expiry A _ _).1]
  · rw [hfire]
    exact he

theorem round_steady {σ : Type} (A : Ambient σ) (f t : Nat) (hS : Steady A f t)
    (hf : f < UINT64_SIZE) (ht : t < UINT64_SIZE) (w : World σ) (c : Nat)
    (hw : w.handler = some { cycleCnt := c, msPerFanCycle := f }) (g : σ → σ) :
    (run A w [Step.env g, Step.fire ErrorCode.success]).handler
        = some { cycleCnt := u64add (if t ≤ c then u64sub c t else c) f,
                 msPerFanCycle := f } ∧
    (run A w [Step.env g, Step.fire ErrorCode.success]).expiry = w.expiry + milliseconds f ∧
    ∃ e : σ, newEvents w (run A w [Step.env g, Step.fire ErrorCode.success]) =
      [Event.getManualMode, Event.updateFanTelemetry, Event.getUpdateThermalsCycle]
        ++ (if t ≤ c then thermalPass else []) ++ [Event.processFans] ++ logEvents A e
        ++ [Event.getCycleIntervalTime, Event.expires_at (w.expiry + milliseconds f),
            Event.async_wait] :=
  fire_steady A f t hS hf ht { w with env := g w.env } c hw ErrorCode.success (by decide)

/-- C3, as stated, fails: on the demo zone (fan interval 100 ms, thermal
interval 250 ms, started through the first call with `cycleCnt = 0`) the third
timer firing sees the counter 200, runs no call of the thermal pass and hands on
300; the thermal pass runs in the fourth firing. -/
theorem third_firing_runs_no_thermal_pass :
    (demoAfter 2).handler = some { cycleCnt := 200, msPerFanCycle := 100 } ∧
    newEvents (demoAfter 2) (demoAfter 3)
      = [Event.getManualMode, Event.updateFanTelemetry, Event.getUpdateThermalsCycle,
         Event.processFans, Event.getCycleIntervalTime, Event.expires_at 411000000,
         Event.async_wait] ∧
    (∀ ev ∈ thermalPass, ev ∉ newEvents (demoAfter 2) (demoAfter 3)) ∧
    (demoAfter 3).handler = some { cycleCnt := 300, msPerFanCycle := 100 } ∧
    Event.processThermals ∈ newEvents (demoAfter 3) (demoAfter 4) := by
  decide

/-- C3 (amended). For every zone with fan interval 100 ms and thermal interval
250 ms that is never in manual mode and never cancelled, started through the
first call with `cycleCnt = 0`, and whatever happens to the environment between
the firings: the first, second and third timer firings run no call of the
thermal pass (they see the counters 0, 100, 200); the fourth firing, which sees
the counter 300, runs the thermal pass, and the counter retained after that pass
is 50, so that 50 + 100 is handed to the fifth cycle. -/
theorem staggering_example {σ : Type} (A : Ambient σ) (hS : Steady A 100 250)
    (w₀ : World σ) (g₁ g₂ g₃ g₄ : σ → σ) (s₀ s₁ s₂ s₃ s₄ : World σ)
    (h₀ : s₀ = pidControlLoop A w₀ true 0)
    (h₁ : s₁ = run A s₀ [Step.env g₁, Step.fire ErrorCode.success])
    (h₂ : s₂ = run A s₁ [Step.env g₂, Step.fire ErrorCode.success])
    (h₃ : s₃ = run A s₂ [Step.env g₃, Step.fire ErrorCode.success])
    (h₄ : s₄ = run A s₃ [Step.env g₄, Step.fire ErrorCode.success]) :
    s₀.handler = some { cycleCnt := 0, msPerFanCycle := 100 } ∧
    s₁.handler = some { cycleCnt := 100, msPerFanCycle := 100 } ∧
    s₂.handler = some { cycleCnt := 200, msPerFanCycle := 100 } ∧
    s₃.handler = some { cycleCnt := 300, msPerFanCycle := 100 } ∧
    s₄.handler = some { cycleCnt := 50 + 100, msPerFanCycle := 100 } ∧
    (∀ ev ∈ thermalPass, ev ∉ newEvents s₀ s₁ ∧ ev ∉ newEvents s₁ s₂ ∧
      ev ∉ newEvents s₂ s₃ ∧ ev ∈ newEvents s₃ s₄) ∧
    thermalPass <:+: newEvents s₃ s₄ := by
  have hf : (100 : Nat) < UINT64_SIZE := by decide
  have ht : (250 : Nat) < UINT64_SIZE := by decide
  have e₀ : s₀.handler = some { cycleCnt := 0, msPerFanCycle := 100 } := by
    rw [h₀, pidControlLoop_first A w₀ 0 (hS.1 _)]
    simp [hS.2.2.1, toUInt64_of_lt 100 hf]
  obtain ⟨a₁, -, x₁, b₁⟩ := round_steady A 100 250 hS hf ht s₀ 0 e₀ g₁
  rw [← h₁] at a₁ b₁
  have e₁ : s₁.handler = some { cycleCnt := 100, msPerFanCycle := 100 } := by
    rw [a₁]; decide
  obtain ⟨a₂, -, x₂, b₂⟩ := round_steady A 100 250 hS hf ht s₁ 100 e₁ g₂
  rw [← h₂] at a₂ b₂
  have e₂ : s₂.handler = some { cycleCnt := 200, msPerFanCycle := 100 } := by
    rw [a₂]; decide
  obtain ⟨a₃, -, x₃, b₃⟩ := round_steady A 100 250 hS hf ht s₂ 200 e₂ g₃
  rw [← h₃] at a₃ b₃
  have e₃ : s₃.handler = some { cycleCnt := 300, msPerFanCycle := 100 } := by
    rw [a₃]; decide
  obtain ⟨a₄, -, x₄, b₄⟩ := round_steady A 100 250 hS hf ht s₃ 300 e₃ g₄
  rw [← h₄] at a₄ b₄
  have e₄ : s₄.handler = some { cycleCnt := 50 + 100, msPerFanCycle := 100 } := by
    rw [a₄]; decide
  refine ⟨e₀, e₁, e₂, e₃, e₄, ?_, ?_⟩
  · intro ev hev
    refine ⟨?_, ?_, ?_, ?_⟩
    · rw [b₁, thermal_mem_iff A x₁ _ _ (Or.inr ⟨_, rfl⟩) ev hev]; decide
    · rw [b₂, thermal_mem_iff A x₂ _ _ (Or.inr ⟨_, rfl⟩) ev hev]; decide
    · rw [b₃, thermal_mem_iff A x₃ _ _ (Or.inr ⟨_, rfl⟩) ev hev]; decide
    · rw [b₄, thermal_mem_iff A x₄ _ _ (Or.inr ⟨_, rfl⟩) ev hev]; decide
  · rw [b₄]
    exact ⟨[Event.getManualMode, Event.updateFanTelemetry, Event.getUpdateThermalsCycle],
      [Event.processFans] ++ logEvents A x₄
        ++ [Event.getCycleIntervalTime, Event.expires_at (s₃.expiry + milliseconds 100),
            Event.async_wait], by simp⟩

/-- Witness for C3 (amended) on the steady zone, with an idle environment
between the firings. -/
theorem staggering_example_witness :
    Steady steadyAmbient 100 250 ∧
    (run steadyAmbient
      (run steadyAmbient
        (run steadyAmbient
          (run steadyAmbient (pidControlLoop steadyAmbient steadyWorld true 0)
            [Step.env id, Step.fire ErrorCode.success])
          [Step.env id, Step.fire ErrorCode.success])
        [Step.env id, Step.fire ErrorCode.success])
      [Step.env id, Step.fire ErrorCode.success]).handler
      = some { cycleCnt := 50 + 100, msPerFanCycle := 100 } :=
  ⟨⟨fun _ => rfl, fun _ => rfl, fun _ => rfl, fun _ => rfl⟩,
   (staggering_example steadyAmbient ⟨fun _ => rfl, fun _ => rfl, fun _ => rfl, fun _ => rfl⟩
      steadyWorld id id id id _ _ _ _ _ rfl rfl rfl rfl rfl).2.2.2.2.1⟩

/-! ## C4 -/

theorem run_idle {σ : Type} (A : Ambient σ) (steps : List (Step σ)) (w : World σ)
    (hw : w.handler = none) :
    (run A w steps).trace = w.trace ∧ (run A w steps).handler = none ∧
    (run A w steps).expiry = w.expiry := by
  induction steps generalizing w with
  | nil => exact ⟨rfl, hw, rfl⟩
  | cons st rest ih =>
    cases st with
    | fire ec =>
      have hstep : step A w (Step.fire ec) = w := by simp [step, fire, hw]
      have hrun : run A w (Step.fire ec :: rest) = run A w rest := by
        show run A (step A w (Step.fire ec)) rest = run A w rest
        rw [hstep]
      rw [hrun]
      exact ih w hw
    | env g =>
      exact ih { w with env := g w.env } hw

/-- C8. Cancellation is terminal. A call of `pidControlLoop` made while the
cancel flag is true (first or not, any `cycleCnt`) returns the world unchanged:
no zone operation, no timer call. If no other wait is pending on the timer (as
is the case inside the lambda and before the first call), then whatever
happens afterwards (completions of the timer with any error code, any changes
of the environment, the flag staying true or not) no zone operation and no timer
arm ever occurs again in that loop. -/
theorem cancellation_is_terminal {σ : Type} (A : Ambient σ) (w : World σ) (first : Bool)
    (cycleCnt : Nat) (hc : A.isCanceling w.env = true) :
    pidControlLoop A w first cycleCnt = w ∧
    newEvents w (pidControlLoop A w first cycleCnt) = [] ∧
    (w.handler = none → ∀ steps : List (Step σ),
      newEvents w (run A (pidControlLoop A w first cycleCnt) steps) = [] ∧
      (run A (pidControlLoop A w first cycleCnt) steps).handler = none ∧
      (run A (pidControlLoop A w first cycleCnt) steps).expiry = w.expiry) := by
  have heq := pidControlLoop_canceled A w first cycleCnt hc
  refine ⟨heq, ?_, ?_⟩
  · rw [heq]; exact newEvents_self w
  · intro hw steps
    rw [heq]
    obtain ⟨h₁, h₂, h₃⟩ := run_idle A steps w hw
    exact ⟨newEvents_append w _ [] (by simp [h₁]), h₂, h₃⟩

/-- Witness for C8: the demo zone with the flag set, called as the first call,
then three timer completions: the trace stays empty. -/
theorem cancellation_is_terminal_witness :
    demoAmbient.isCanceling (demoWorld demoCancelEnv).env = true ∧
    (demoWorld demoCancelEnv).handler = none ∧
    newEvents (demoWorld demoCancelEnv)
      (run demoAmbient (pidControlLoop demoAmbient (demoWorld demoCancelEnv) true 0)
        [Step.fire ErrorCode.success, Step.env DemoEnv.tick, Step.fire ErrorCode.success,
         Step.fire ErrorCode.operation_aborted]) = [] :=
  ⟨by decide, by decide,
   ((cancellation_is_terminal demoAmbient (demoWorld demoCancelEnv) true 0 (by decide)).2.2
      (by decide) _).1⟩

/-! ## C9 -/

/-- C9, as stated, fails: the demo lambda (counter 300, thermal interval 250)
fired without error while the cancel flag is already true still consults
`getManualMode` and runs the whole cycle (fan telemetry, thermal pass,
`processFans`); only the re-arm is left out. -/
theorem canceled_firing_still_runs_cycle :
    demoAmbient.isCanceling (demoFiring demoCancelEnv).env = true ∧
    newEvents (demoFiring demoCancelEnv)
        (timerCallback demoAmbient demoHandler (demoFiring demoCancelEnv) ErrorCode.success)
      = [Event.getManualMode, Event.updateFanTelemetry, Event.getUpdateThermalsCycle,
         Event.updateSensors, Event.clearSetPoints, Event.clearRPMCeilings,
         Event.processThermals, Event.determineMaxSetPointRequest, Event.processFans] := by
  decide

/-- C9 (amended). The cancel flag is read on entry to `pidControlLoop`, that
is after the cycle body and before the re-arm, not at the top of the lambda. A
non-aborted firing that finds the flag true at that point arms no timer
(no `expires_at`, no `async_wait`, expiry and pending handler untouched), but it
has consulted `getManualMode` first and, when the zone is not in manual mode,
has run `updateFanTelemetry`, `getUpdateThermalsCycle`, the thermal pass if due,
`processFans` and the log block. -/
theorem cancel_checked_on_reentry {σ : Type} (A : Ambient σ) (h : Handler) (w : World σ)
    (ec : ErrorCode) (hec : ec ≠ ErrorCode.operation_aborted)
    (hc : A.isCanceling (cycleBody A h w).1.env = true) :
    timerCallback A h w ec = (cycleBody A h w).1 ∧
    (timerCallback A h w ec).expiry = w.expiry ∧
    (timerCallback A h w ec).handler = w.handler ∧
    (A.zone.getManualMode w.env = true →
      newEvents w (timerCallback A h w ec) = [Event.getManualMode]) ∧
    (A.zone.getManualMode w.env = false →
      ∃ e : σ, newEvents w (timerCallback A h w ec) =
        [Event.getManualMode, Event.updateFanTelemetry, Event.getUpdateThermalsCycle]
          ++ (if toUInt64 (A.zone.getUpdateThermalsCycle (A.zone.updateFanTelemetry w.env))
                ≤ h.cycleCnt then thermalPass else [])
          ++ [Event.processFans] ++ logEvents A e) ∧
    (newEvents w (timerCallback A h w ec)).filter Event.isArm = [] ∧
    Event.async_wait ∉ newEvents w (timerCallback A h w ec) := by
  have heq : timerCallback A h w ec = (cycleBody A h w).1 := by
    rw [timerCallback_eq, if_neg hec, pidControlLoop_canceled A _ false _ hc]
  have hman : A.zone.getManualMode w.env = true →
      newEvents w (timerCallback A h w ec) = [Event.getManualMode] := by
    intro hm
    apply newEvents_append
    rw [heq, cycleBody_manual A h w hm]
    rfl
  have hauto : A.zone.getManualMode w.env = false →
      ∃ e : σ, newEvents w (timerCallback A h w ec) =
        [Event.getManualMode, Event.updateFanTelemetry, Event.getUpdateThermalsCycle]
          ++ (if toUInt64 (A.zone.getUpdateThermalsCycle (A.zone.updateFanTelemetry w.env))
                ≤ h.cycleCnt then thermalPass else [])
          ++ [Event.processFans] ++ logEvents A e := by
    intro hm
    obtain ⟨e, he⟩ := timerCallback_events A h w ec hec hm
    refine ⟨e, ?_⟩
    rw [he]
    simp [hc]
  refine ⟨heq, ?_, ?_, hman, hauto, ?_, ?_⟩
  · rw [heq]; exact (cycleBody_expiry A h w).1
  · rw [heq]; exact (cycleBody_expiry A h w).2
  · by_cases hm : A.zone.getManualMode w.env = true
    · rw [hman hm]; rfl
    · obtain ⟨e, he⟩ := hauto (by simpa using hm)
      rw [he]
      unfold logEvents thermalPass
      split_ifs <;> simp [Event.isArm]
  · by_cases hm : A.zone.getManualMode w.env = true
    · rw [hman hm]; simp
    · obtain ⟨e, he⟩ := hauto (by simpa using hm)
      rw [he]
      unfold logEvents thermalPass
      split_ifs <;> simp

/-- Witness for C9 (amended): the cancelled demo firing leaves the timer at its
expiry of 100 ms with no handler pending. -/
theorem cancel_checked_on_reentry_witness :
    ErrorCode.success ≠ ErrorCode.operation_aborted ∧
    demoAmbient.isCanceling
      (cycleBody demoAmbient demoHandler (demoFiring demoCancelEnv)).1.env = true ∧
    (timerCallback demoAmbient demoHandler (demoFiring demoCancelEnv)
      ErrorCode.success).expiry = 100000000 :=
  ⟨by decide, by decide,
   (cancel_checked_on_reentry demoAmbient demoHandler (demoFiring demoCancelEnv)
      ErrorCode.success (by decide) (by decide)).2.1⟩

/-! ## C10 -/

theorem cycleBody_no_timer_events {σ : Type} (A : Ambient σ) (h : Handler) (w : World σ) :
    ∃ evs : List Event, (cycleBody A h w).1.trace = w.trace ++ evs ∧
      evs.filter Event.isArm = [] ∧ evs.count Event.async_wait = 0 := by
  by_cases hm : A.zone.getManualMode w.env = true
  · refine ⟨[Event.getManualMode], ?_, rfl, rfl⟩
    rw [cycleBody_manual A h w hm]
    rfl
  · obtain ⟨e, he⟩ := cycleBody_trace A h w (by simpa using hm)
    refine ⟨_, he, ?_, ?_⟩
    · unfold logEvents thermalPass
      split_ifs <;> simp [Event.isArm]
    · unfold logEvents thermalPass
      split_ifs <;> simp

/-- C10. The only terminal conditions are cancellation. For every zone
behaviour, every captured state and every error code, the lambda arms the timer
exactly once (one `expires_at`, one `async_wait`) if the error code is not
`operation_aborted` and the cancel flag is false when the cycle body has
finished, and not at all otherwise. An aborted wait returns at once: no zone
operation, nothing armed. When it does re-arm, the deadline is the expiry of the
firing plus the fan-cycle interval. Nothing a zone operation does (manual or
not, thermal pass or not, fail-safe or not) enters the condition. -/
theorem rearm_iff_not_aborted_and_not_canceled {σ : Type} (A : Ambient σ) (h : Handler)
    (w : World σ) (ec : ErrorCode) :
    ((newEvents w (timerCallback A h w ec)).filter Event.isArm).length
      = (if ec ≠ ErrorCode.operation_aborted ∧ A.isCanceling (cycleBody A h w).1.env = false
         then 1 else 0) ∧
    (newEvents w (timerCallback A h w ec)).count Event.async_wait
      = (if ec ≠ ErrorCode.operation_aborted ∧ A.isCanceling (cycleBody A h w).1.env = false
         then 1 else 0) ∧
    (ec = ErrorCode.operation_aborted → timerCallback A h w ec = w) ∧
    (∀ w' : World σ, w'.handler = some h →
      newEvents w' (fire A w' ErrorCode.operation_aborted) = [] ∧
      (fire A w' ErrorCode.operation_aborted).handler = none) ∧
    (ec ≠ ErrorCode.operation_aborted → A.isCanceling (cycleBody A h w).1.env = false →
      (timerCallback A h w ec).expiry
        = w.expiry + milliseconds
            (toUInt64 (A.zone.getCycleIntervalTime (cycleBody A h w).1.env)) ∧
      (timerCallback A h w ec).handler
        = some { cycleCnt := (cycleBody A h w).2,
                 msPerFanCycle :=
                   toUInt64 (A.zone.getCycleIntervalTime (cycleBody A h w).1.env) }) := by
  obtain ⟨evs, hevs, harm, hwait⟩ := cycleBody_no_timer_events A h w
  have habort : ec = ErrorCode.operation_aborted → timerCallback A h w ec = w := by
    intro hec
    rw [timerCallback_eq, if_pos hec]
  have hcounts :
      ((newEvents w (timerCallback A h w ec)).filter Event.isArm).length
        = (if ec ≠ ErrorCode.operation_aborted ∧
              A.isCanceling (cycleBody A h w).1.env = false then 1 else 0) ∧
      (newEvents w (timerCallback A h w ec)).count Event.async_wait
        = (if ec ≠ ErrorCode.operation_aborted ∧
              A.isCanceling (cycleBody A h w).1.env = false then 1 else 0) := by
    by_cases hec : ec = ErrorCode.operation_aborted
    · rw [habort hec, newEvents_self]
      simp [hec]
    · by_cases hc : A.isCanceling (cycleBody A h w).1.env = true
      · have hnew : newEvents w (timerCallback A h w ec) = evs := by
          apply newEvents_append
          rw [timerCallback_eq, if_neg hec, pidControlLoop_canceled A _ false _ hc, hevs]
        rw [hnew, harm, hwait]
        simp [hc]
      · have hc' : A.isCanceling (cycleBody A h w).1.env = false := by simpa using hc
        have hnew : newEvents w (timerCallback A h w ec) = evs ++
            [Event.getCycleIntervalTime,
             Event.expires_at ((cycleBody A h w).1.expiry + milliseconds
               (toUInt64 (A.zone.getCycleIntervalTime (cycleBody A h w).1.env))),
             Event.async_wait] := by
          apply newEvents_append
          rw [timerCallback_eq, if_neg hec, pidControlLoop_rearm A _ _ hc', hevs]
          simp
        rw [hnew, List.filter_append, List.count_append, harm, hwait]
        simp [hec, hc', Event.isArm]
  refine ⟨hcounts.1, hcounts.2, habort, ?_, ?_⟩
  · intro w' hw'
    have hf : fire A w' ErrorCode.operation_aborted = { w' with handler := none } := by
      simp [fire, hw', timerCallback]
    rw [hf]
    exact ⟨newEvents_append w' _ [] (by simp), rfl⟩
  · intro hec hc
    rw [timerCallback_eq, if_neg hec, pidControlLoop_rearm A _ _ hc]
    simp [(cycleBody_expiry A h w).1]

/-- Witness for C10: a non-aborted firing of the demo lambda in fail-safe with
logging on arms the timer once; the same firing aborted arms nothing. -/
theorem rearm_iff_not_aborted_and_not_canceled_witness :
    ((newEvents (demoFiring { demoEnv with failSafe := true, logging := true })
        (timerCallback demoAmbient demoHandler
          (demoFiring { demoEnv with failSafe := true, logging := true })
          ErrorCode.success)).filter Event.isArm).length = 1 ∧
    timerCallback demoAmbient demoHandler (demoFiring demoEnv) ErrorCode.operation_aborted
      = demoFiring demoEnv :=
  ⟨(rearm_iff_not_aborted_and_not_canceled demoAmbient demoHandler
      (demoFiring { demoEnv with failSafe := true, logging := true }) ErrorCode.success).1,
   (rearm_iff_not_aborted_and_not_canceled demoAmbient demoHandler (demoFiring demoEnv)
      ErrorCode.operation_aborted).2.2.1 rfl⟩

end pid_control

/-! # Properties of the sensor builder -/

namespace sensors

/-! ## Shared lemmas -/

theorem buildSensor_append (R W : String → IOInterfaceType) (mgmr : SensorManager)
    (it : String × sensor) :
    (buildSensor R W mgmr it).sensors
      = mgmr.sensors ++ (buildSensor R W { sensors := [] } it).sensors := by
  unfold buildSensor
  simp only []
  split_ifs <;> simp [SensorManager.addSensor]

theorem foldl_buildSensor (R W : String → IOInterfaceType) (config : List (String × sensor))
    (mgmr : SensorManager) :
    (config.foldl (buildSensor R W) mgmr).sensors
      = mgmr.sensors
        ++ (config.map (fun it => (buildSensor R W { sensors := [] } it).sensors)).flatten := by
  induction config generalizing mgmr with
  | nil => simp
  | cons it rest ih =>
    rw [List.foldl_cons, ih, buildSensor_append]
    simp

theorem mem_BuildSensors (R W : String → IOInterfaceType) (config : List (String × sensor))
    (reg : Registration) :
    reg ∈ (BuildSensors R W config).sensors ↔
      ∃ it ∈ config, reg ∈ (buildSensor R W { sensors := [] } it).sensors := by
  unfold BuildSensors
  rw [foldl_buildSensor]
  simp only [List.nil_append, List.mem_flatten, List.mem_map]
  constructor
  · rintro ⟨l, ⟨it, hit, rfl⟩, hreg⟩
    exact ⟨it, hit, hreg⟩
  · rintro ⟨it, hit, hreg⟩
    exact ⟨_, ⟨it, hit, rfl⟩, hreg⟩

theorem buildSensor_fan (R W : String → IOInterfaceType) (mgmr : SensorManager)
    (name : String) (info : sensor) (hfan : info.type = "fan") :
    buildSensor R W mgmr (name, info) =
      mgmr.addSensor "fan" name
        (.PluggableSensor name info.timeout (readInterface (R info.readpath) name info)
          (fanWriteInterface (W info.writepath) info)) := by
  simp [buildSensor, hfan]

theorem buildSensor_telemetry (R W : String → IOInterfaceType) (mgmr : SensorManager)
    (name : String) (info : sensor) (ht : info.type = "temp" ∨ info.type = "margin") :
    buildSensor R W mgmr (name, info) =
      if R info.readpath = IOInterfaceType.EXTERNAL then
        mgmr.addSensor info.type name
          (.HostSensor_CreateTemp name info.timeout .HostSensorBus info.readpath true)
      else
        mgmr.addSensor info.type name
          (.PluggableSensor name info.timeout (readInterface (R info.readpath) name info)
            (some .ReadOnlyNoExcept)) := by
  have hnf : info.type ≠ "fan" := by
    rcases ht with h | h <;> rw [h] <;> decide
  unfold buildSensor
  simp only [hnf, if_false, ht, if_true, deferSignals]
  by_cases hr : R info.readpath = IOInterfaceType.EXTERNAL
  · simp [hr]
  · have hr' : ¬ IOInterfaceType.EXTERNAL = R info.readpath := fun h => hr h.symm
    simp [hr, hr']

/-! ## C5 -/

/-- C5. Write-interface selection for fans. For a descriptor of type `fan`, the
loop iteration registers one pluggable sensor under (`fan`, name) whose write
interface is `SysFsWritePercent(writepath, min, max)` when the write path has
the SYSFS scheme and `max > 0`, `SysFsWrite(writepath, min, max)` when it has
the SYSFS scheme and `max ≤ 0`, and `ReadOnlyNoExcept` for every other
write-path scheme; and that registration is in the manager `BuildSensors`
returns for any configuration containing the descriptor. -/
theorem fan_write_interface_selection (R W : String → IOInterfaceType) (name : String)
    (info : sensor) (hfan : info.type = "fan") :
    (W info.writepath = IOInterfaceType.SYSFS → 0 < info.max → ∀ mgmr : SensorManager,
      buildSensor R W mgmr (name, info) =
        mgmr.addSensor "fan" name
          (.PluggableSensor name info.timeout (readInterface (R info.readpath) name info)
            (some (.SysFsWritePercent info.writepath info.min info.max)))) ∧
    (W info.writepath = IOInterfaceType.SYSFS → info.max ≤ 0 → ∀ mgmr : SensorManager,
      buildSensor R W mgmr (name, info) =
        mgmr.addSensor "fan" name
          (.PluggableSensor name info.timeout (readInterface (R info.readpath) name info)
            (some (.SysFsWrite info.writepath info.min info.max)))) ∧
    (W info.writepath ≠ IOInterfaceType.SYSFS → ∀ mgmr : SensorManager,
      buildSensor R W mgmr (name, info) =
        mgmr.addSensor "fan" name
          (.PluggableSensor name info.timeout (readInterface (R info.readpath) name info)
            (some .ReadOnlyNoExcept))) ∧
    (∀ config : List (String × sensor), (name, info) ∈ config →
      ({ type := "fan", name := name,
         sensor := .PluggableSensor name info.timeout
           (readInterface (R info.readpath) name info)
           (if W info.writepath = IOInterfaceType.SYSFS then
              (if 0 < info.max then
                 some (.SysFsWritePercent info.writepath info.min info.max)
               else some (.SysFsWrite info.writepath info.min info.max))
            else some .ReadOnlyNoExcept) } : Registration)
        ∈ (BuildSensors R W config).sensors) := by
  have hwi : fanWriteInterface (W info.writepath) info =
      (if W info.writepath = IOInterfaceType.SYSFS then
        (if 0 < info.max then some (.SysFsWritePercent info.writepath info.min info.max)
         else some (.SysFsWrite info.writepath info.min info.max))
       else some .ReadOnlyNoExcept) := by
    unfold fanWriteInterface
    cases hW : W info.writepath <;> simp
  refine ⟨?_, ?_, ?_, ?_⟩
  · intro hs hmax mgmr
    rw [buildSensor_fan R W mgmr name info hfan, hwi]
    simp [hs, hmax]
  · intro hs hmax mgmr
    rw [buildSensor_fan R W mgmr name info hfan, hwi]
    simp [hs, not_lt.mpr hmax]
  · intro hs mgmr
    rw [buildSensor_fan R W mgmr name info hfan, hwi]
    simp [hs]
  · intro config hmem
    rw [mem_BuildSensors]
    refine ⟨(name, info), hmem, ?_⟩
    rw [buildSensor_fan R W _ name info hfan, hwi]
    simp [SensorManager.addSensor]

/-- Witness for C5: the scaled fan `fan0` of the demo configuration. -/
theorem fan_write_interface_selection_witness :
    ("fan" : String) = "fan" ∧
    ({ type := "fan", name := "fan0",
       sensor := .PluggableSensor "fan0" 0 (some (.SysFsRead "/sys/fan0_input"))
         (some (.SysFsWritePercent "/sys/pwm0" 0 255)) } : Registration)
      ∈ (BuildSensors demoScheme demoScheme demoConfig).sensors :=
  ⟨rfl,
   (fan_write_interface_selection demoScheme demoScheme "fan0"
      { type := "fan", readpath := "/sys/fan0_input", writepath := "/sys/pwm0",
        min := 0, max := 255, timeout := 0 } rfl).2.2.2 demoConfig (by decide)⟩

/-! ## C6 -/

/-- C6, as stated, fails for the externally-flagged read path: for the margin
descriptor `margin0` of the demo configuration (read path external, write path
a device file) the one sensor registered is a host sensor made by
`HostSensor::CreateTemp(name, timeout, bus, readpath, defer)`, which is given no
write interface at all, so it does not carry `ReadOnlyNoExcept`. -/
theorem external_margin_has_no_write_interface :
    (∀ reg ∈ (BuildSensors demoScheme demoScheme demoConfig).sensors,
      reg.name = "margin0" →
        reg.type = "margin" ∧
        reg.sensor = .HostSensor_CreateTemp "margin0" 3 .HostSensorBus "external" true ∧
        reg.sensor.writeInterface ≠ some .ReadOnlyNoExcept) ∧
    (∃ reg ∈ (BuildSensors demoScheme demoScheme demoConfig).sensors,
      reg.name = "margin0") := by
  decide

/-- C6 (amended). Read-only telemetry rule. For a descriptor of type `temp` or
`margin`, whatever its write path, write-path scheme, min and max: if the read
path is not externally flagged, the iteration registers one pluggable sensor
whose write interface is `ReadOnlyNoExcept`; if it is externally flagged, the
iteration registers one host sensor, created without any write interface. In
both cases, and for every sensor `BuildSensors` registers under `temp` or
`margin`, the write interface is never `SysFsWrite` or `SysFsWritePercent`. -/
theorem telemetry_is_read_only (R W : String → IOInterfaceType) (name : String)
    (info : sensor) (ht : info.type = "temp" ∨ info.type = "margin") :
    (R info.readpath ≠ IOInterfaceType.EXTERNAL → ∀ mgmr : SensorManager,
      buildSensor R W mgmr (name, info) =
        mgmr.addSensor info.type name
          (.PluggableSensor name info.timeout (readInterface (R info.readpath) name info)
            (some .ReadOnlyNoExcept))) ∧
    (R info.readpath = IOInterfaceType.EXTERNAL → ∀ mgmr : SensorManager,
      buildSensor R W mgmr (name, info) =
        mgmr.addSensor info.type name
          (.HostSensor_CreateTemp name info.timeout .HostSensorBus info.readpath true)) ∧
    (∀ config : List (String × sensor), ∀ reg ∈ (BuildSensors R W config).sensors,
      reg.type = "temp" ∨ reg.type = "margin" →
        reg.sensor.writeInterface = some .ReadOnlyNoExcept ∨
        reg.sensor.writeInterface = none) := by
  refine ⟨?_, ?_, ?_⟩
  · intro hr mgmr
    rw [buildSensor_telemetry R W mgmr name info ht, if_neg hr]
  · intro hr mgmr
    rw [buildSensor_telemetry R W mgmr name info ht, if_pos hr]
  · intro config reg hreg hty
    rw [mem_BuildSensors] at hreg
    obtain ⟨⟨n, i⟩, -, hmem⟩ := hreg
    by_cases hfan : i.type = "fan"
    · rw [buildSensor_fan R W _ n i hfan] at hmem
      simp only [SensorManager.addSensor, List.nil_append, List.mem_singleton] at hmem
      subst hmem
      rcases hty with h | h
      · exact absurd (show ("fan" : String) = "temp" from h) (by decide)
      · exact absurd (show ("fan" : String) = "margin" from h) (by decide)
    · by_cases hti : i.type = "temp" ∨ i.type = "margin"
      · rw [buildSensor_telemetry R W _ n i hti] at hmem
        by_cases hr : R i.readpath = IOInterfaceType.EXTERNAL
        · rw [if_pos hr] at hmem
          simp only [SensorManager.addSensor, List.nil_append, List.mem_singleton] at hmem
          subst hmem
          exact Or.inr rfl
        · rw [if_neg hr] at hmem
          simp only [SensorManager.addSensor, List.nil_append, List.mem_singleton] at hmem
          subst hmem
          exact Or.inl rfl
      · simp [buildSensor, hfan, hti] at hmem

/-- Witness for C6 (amended): the polled temperature `temp0` of the demo
configuration, which has a device-file write path, gets `ReadOnlyNoExcept`. -/
theorem telemetry_is_read_only_witness :
    (("temp" : String) = "temp" ∨ ("temp" : String) = "margin") ∧
    demoScheme "/sys/temp0_input" ≠ IOInterfaceType.EXTERNAL ∧
    buildSensor demoScheme demoScheme { sensors := [] }
        ("temp0", { type := "temp", readpath := "/sys/temp0_input", writepath := "/sys/pwm0",
                    min := 0, max := 255, timeout := 2 })
      = SensorManager.addSensor { sensors := [] } "temp" "temp0"
          (.PluggableSensor "temp0" 2 (some (.SysFsRead "/sys/temp0_input"))
            (some .ReadOnlyNoExcept)) :=
  ⟨Or.inl rfl, by decide,
   (telemetry_is_read_only demoScheme demoScheme "temp0"
      { type := "temp", readpath := "/sys/temp0_input", writepath := "/sys/pwm0",
        min := 0, max := 255, timeout := 2 } (Or.inl rfl)).1 (by decide) { sensors := [] }⟩

end sensors

/-! # Further properties of the control loop -/

namespace pid_control

/-! ## Shared lemmas -/

theorem cycleBody_trace_explicit {σ : Type} (A : Ambient σ) (h : Handler) (w : World σ)
    (hm : A.zone.getManualMode w.env = false) :
    (cycleBody A h w).1.trace =
      w.trace ++ ([Event.getManualMode, Event.updateFanTelemetry, Event.getUpdateThermalsCycle]
        ++ (if toUInt64 (A.zone.getUpdateThermalsCycle (A.zone.updateFanTelemetry w.env))
              ≤ h.cycleCnt then thermalPass else [])
        ++ [Event.processFans] ++ logEvents A (envAfterFans A h w)) := by
  unfold cycleBody envAfterFans
  simp only [hm, Bool.false_eq_true, if_false]
  by_cases ht : toUInt64 (A.zone.getUpdateThermalsCycle (A.zone.updateFanTelemetry w.env))
      ≤ h.cycleCnt
  · simp [ht, processThermals, thermalPass]
  · simp [ht]

theorem timerCallback_events_explicit {σ : Type} (A : Ambient σ) (h : Handler) (w : World σ)
    (ec : ErrorCode) (hec : ec ≠ ErrorCode.operation_aborted)
    (hm : A.zone.getManualMode w.env = false) :
    newEvents w (timerCallback A h w ec) =
      [Event.getManualMode, Event.updateFanTelemetry, Event.getUpdateThermalsCycle]
        ++ (if toUInt64 (A.zone.getUpdateThermalsCycle (A.zone.updateFanTelemetry w.env))
              ≤ h.cycleCnt then thermalPass else [])
        ++ [Event.processFans] ++ logEvents A (envAfterFans A h w)
        ++ (if A.isCanceling (cycleBody A h w).1.env then []
            else [Event.getCycleIntervalTime,
                  Event.expires_at (w.expiry + milliseconds
                    (toUInt64 (A.zone.getCycleIntervalTime (cycleBody A h w).1.env))),
                  Event.async_wait]) := by
  apply newEvents_append
  rw [timerCallback_eq, if_neg hec, pidControlLoop_events, cycleBody_trace_explicit A h w hm,
    (cycleBody_expiry A h w).1]
  simp

end pid_control

namespace pid_control

/-! ## C11 -/

/-- C11. Order of zone operations in one cycle. In a non-manual, non-aborted
firing the complete sequence of calls is: `getManualMode`, `updateFanTelemetry`,
`getUpdateThermalsCycle`, the five calls of the thermal pass (only in a thermal
cycle), `processFans`, then `getFailSafeMode` and `writeLog` (only if logging is
enabled), then the re-arm (`getCycleIntervalTime`, `expires_at`, `async_wait`,
only if not cancelled). Restricted to the operations of the zone contract, the
sequence is exactly `updateFanTelemetry`; then, only in a thermal cycle,
`updateSensors`, `clearSetPoints`, `clearRPMCeilings`, `processThermals`,
`determineMaxSetPointRequest`; then `processFans`; then, only if logging is
enabled, `getFailSafeMode`. No operation occurs twice, and `updateFanTelemetry`
and `processFans` occur exactly once in every such firing. -/
theorem cycle_operation_order {σ : Type} (A : Ambient σ) (h : Handler) (w : World σ)
    (ec : ErrorCode) (hec : ec ≠ ErrorCode.operation_aborted)
    (hm : A.zone.getManualMode w.env = false) :
    newEvents w (timerCallback A h w ec) =
      [Event.getManualMode, Event.updateFanTelemetry, Event.getUpdateThermalsCycle]
        ++ (if toUInt64 (A.zone.getUpdateThermalsCycle (A.zone.updateFanTelemetry w.env))
              ≤ h.cycleCnt then thermalPass else [])
        ++ [Event.processFans] ++ logEvents A (envAfterFans A h w)
        ++ (if A.isCanceling (cycleBody A h w).1.env then []
            else [Event.getCycleIntervalTime,
                  Event.expires_at (w.expiry + milliseconds
                    (toUInt64 (A.zone.getCycleIntervalTime (cycleBody A h w).1.env))),
                  Event.async_wait]) ∧
    (newEvents w (timerCallback A h w ec)).filter Event.isCycleOperation =
      [Event.updateFanTelemetry]
        ++ (if toUInt64 (A.zone.getUpdateThermalsCycle (A.zone.updateFanTelemetry w.env))
              ≤ h.cycleCnt
            then [Event.updateSensors, Event.clearSetPoints, Event.clearRPMCeilings,
                  Event.processThermals, Event.determineMaxSetPointRequest]
            else [])
        ++ [Event.processFans]
        ++ (if A.loggingEnabled (envAfterFans A h w) then [Event.getFailSafeMode] else []) ∧
    ((newEvents w (timerCallback A h w ec)).filter Event.isCycleOperation).Nodup ∧
    (newEvents w (timerCallback A h w ec)).count Event.updateFanTelemetry = 1 ∧
    (newEvents w (timerCallback A h w ec)).count Event.processFans = 1 := by
  have hev := timerCallback_events_explicit A h w ec hec hm
  refine ⟨hev, ?_, ?_, ?_, ?_⟩
  · rw [hev]
    unfold logEvents thermalPass
    split_ifs <;> simp [Event.isCycleOperation]
  · rw [hev]
    unfold logEvents thermalPass
    split_ifs <;> simp [Event.isCycleOperation]
  · rw [hev]
    unfold logEvents thermalPass
    split_ifs <;> simp
  · rw [hev]
    unfold logEvents thermalPass
    split_ifs <;> simp

/-- Witness for C11: the demo lambda at counter 300 (thermal interval 250) with
logging on runs the full sequence. -/
theorem cycle_operation_order_witness :
    ErrorCode.success ≠ ErrorCode.operation_aborted ∧
    demoAmbient.zone.getManualMode (demoFiring demoLogEnv).env = false ∧
    (newEvents (demoFiring demoLogEnv)
        (timerCallback demoAmbient demoHandler (demoFiring demoLogEnv)
          ErrorCode.success)).filter Event.isCycleOperation
      = [Event.updateFanTelemetry, Event.updateSensors, Event.clearSetPoints,
         Event.clearRPMCeilings, Event.processThermals, Event.determineMaxSetPointRequest,
         Event.processFans, Event.getFailSafeMode] :=
  ⟨by decide, by decide,
   (cycle_operation_order demoAmbient demoHandler (demoFiring demoLogEnv)
      ErrorCode.success (by decide) (by decide)).2.1⟩

end pid_control

namespace pid_control

/-! ## C17 -/

theorem timerCallback_events_manual {σ : Type} (A : Ambient σ) (h : Handler) (w : World σ)
    (ec : ErrorCode) (hec : ec ≠ ErrorCode.operation_aborted)
    (hm : A.zone.getManualMode w.env = true) :
    newEvents w (timerCallback A h w ec) =
      Event.getManualMode ::
        (if A.isCanceling w.env then []
         else [Event.getCycleIntervalTime,
               Event.expires_at
                 (w.expiry + milliseconds (toUInt64 (A.zone.getCycleIntervalTime w.env))),
               Event.async_wait]) := by
  apply newEvents_append
  rw [timerCallback_eq, if_neg hec, cycleBody_manual A h w hm, pidControlLoop_events]
  simp

/-- C17. Telemetry log line. In a non-manual, non-aborted firing in which
logging is enabled when the log block is reached, `writeLog` is called exactly
once, directly after `processFans` and `getFailSafeMode`, with the text `","`
followed by the value of `getFailSafeMode()` printed as `1` or `0` followed by
one newline. If logging is disabled at that point, the firing calls neither
`getFailSafeMode` nor `writeLog`; a manual or aborted firing never calls them;
and a first call with logging disabled does not call `initializeLog` (a call
with `first = false` never does). -/
theorem telemetry_log_line {σ : Type} (A : Ambient σ) (h : Handler) (w : World σ)
    (ec : ErrorCode) :
    (ec ≠ ErrorCode.operation_aborted → A.zone.getManualMode w.env = false →
      A.loggingEnabled (envAfterFans A h w) = true →
      newEvents w (timerCallback A h w ec) =
        [Event.getManualMode, Event.updateFanTelemetry, Event.getUpdateThermalsCycle]
          ++ (if toUInt64 (A.zone.getUpdateThermalsCycle (A.zone.updateFanTelemetry w.env))
                ≤ h.cycleCnt then thermalPass else [])
          ++ [Event.processFans, Event.getFailSafeMode,
              Event.writeLog
                ("," ++ (if A.zone.getFailSafeMode (envAfterFans A h w) then "1" else "0")
                  ++ "\n")]
          ++ (if A.isCanceling (cycleBody A h w).1.env then []
              else [Event.getCycleIntervalTime,
                    Event.expires_at (w.expiry + milliseconds
                      (toUInt64 (A.zone.getCycleIntervalTime (cycleBody A h w).1.env))),
                    Event.async_wait]) ∧
      (newEvents w (timerCallback A h w ec)).filter Event.isWriteLog =
        [Event.writeLog
          ("," ++ (if A.zone.getFailSafeMode (envAfterFans A h w) then "1" else "0")
            ++ "\n")]) ∧
    (logLine true = ",1\n" ∧ logLine false = ",0\n") ∧
    (ec ≠ ErrorCode.operation_aborted → A.zone.getManualMode w.env = false →
      A.loggingEnabled (envAfterFans A h w) = false →
      Event.getFailSafeMode ∉ newEvents w (timerCallback A h w ec) ∧
      (newEvents w (timerCallback A h w ec)).filter Event.isWriteLog = []) ∧
    (ec = ErrorCode.operation_aborted ∨ A.zone.getManualMode w.env = true →
      Event.getFailSafeMode ∉ newEvents w (timerCallback A h w ec) ∧
      (newEvents w (timerCallback A h w ec)).filter Event.isWriteLog = []) ∧
    (∀ cycleCnt : Nat, A.loggingEnabled w.env = false →
      Event.initializeLog ∉ newEvents w (pidControlLoop A w true cycleCnt)) ∧
    (∀ cycleCnt : Nat, Event.initializeLog ∉ newEvents w (pidControlLoop A w false cycleCnt)) := by
  refine ⟨?_, ⟨by decide, by decide⟩, ?_, ?_, ?_, ?_⟩
  · intro hec hm hl
    have hev := timerCallback_events_explicit A h w ec hec hm
    rw [hev]
    unfold logEvents logLine thermalPass
    constructor
    · simp [hl]
    · split_ifs <;> simp [Event.isWriteLog, hl] at *
  · intro hec hm hl
    have hev := timerCallback_events_explicit A h w ec hec hm
    rw [hev]
    unfold logEvents thermalPass
    constructor
    · split_ifs <;> simp [hl] at *
    · split_ifs <;> simp [Event.isWriteLog, hl] at *
  · intro hor
    by_cases hec : ec = ErrorCode.operation_aborted
    · rw [timerCallback_eq, if_pos hec, newEvents_self]
      simp
    · have hm : A.zone.getManualMode w.env = true := by
        rcases hor with h₁ | h₁
        · exact absurd h₁ hec
        · exact h₁
      rw [timerCallback_events_manual A h w ec hec hm]
      constructor
      · split_ifs <;> simp
      · split_ifs <;> simp [Event.isWriteLog]
  · intro cycleCnt hl
    by_cases hc : A.isCanceling w.env = true
    · rw [pidControlLoop_canceled A w true cycleCnt hc, newEvents_self]
      simp
    · have hc' : A.isCanceling w.env = false := by simpa using hc
      rw [newEvents_append w _ _ (by rw [pidControlLoop_first A w cycleCnt hc'])]
      simp [hl, thermalPass]
  · intro cycleCnt
    rw [newEvents_append w _ _ (pidControlLoop_events A w cycleCnt)]
    split_ifs <;> simp

/-- Witness for C17: the demo lambda with logging on and the zone in fail-safe
mode writes `",1\n"` once. -/
theorem telemetry_log_line_witness :
    ErrorCode.success ≠ ErrorCode.operation_aborted ∧
    demoAmbient.zone.getManualMode (demoFiring demoLogEnv).env = false ∧
    demoAmbient.loggingEnabled
      (envAfterFans demoAmbient demoHandler (demoFiring demoLogEnv)) = true ∧
    (newEvents (demoFiring demoLogEnv)
        (timerCallback demoAmbient demoHandler (demoFiring demoLogEnv)
          ErrorCode.success)).filter Event.isWriteLog
      = [Event.writeLog ",1\n"] :=
  ⟨by decide, by decide, by decide,
   ((telemetry_log_line demoAmbient demoHandler (demoFiring demoLogEnv)
      ErrorCode.success).1 (by decide) (by decide) (by decide)).2⟩

end pid_control

namespace pid_control

/-! ## C18 -/

theorem timerCallback_trace {σ : Type} (A : Ambient σ) (h : Handler) (w : World σ)
    (ec : ErrorCode) (hec : ec ≠ ErrorCode.operation_aborted)
    (hm : A.zone.getManualMode w.env = false) :
    (timerCallback A h w ec).trace = w.trace ++
      ([Event.getManualMode, Event.updateFanTelemetry, Event.getUpdateThermalsCycle]
        ++ (if toUInt64 (A.zone.getUpdateThermalsCycle (A.zone.updateFanTelemetry w.env))
              ≤ h.cycleCnt then thermalPass else [])
        ++ [Event.processFans] ++ logEvents A (envAfterFans A h w)
        ++ (if A.isCanceling (cycleBody A h w).1.env then []
            else [Event.getCycleIntervalTime,
                  Event.expires_at (w.expiry + milliseconds
                    (toUInt64 (A.zone.getCycleIntervalTime (cycleBody A h w).1.env))),
                  Event.async_wait])) := by
  rw [timerCallback_eq, if_neg hec, pidControlLoop_events, cycleBody_trace_explicit A h w hm,
    (cycleBody_expiry A h w).1]
  simp

theorem div_mod_step (f t k : Nat) (ht : 0 < t) (hft : f ≤ t) :
    (t ≤ k * f % t + f →
      (k + 1) * f % t = k * f % t + f - t ∧ (k + 1) * f / t = k * f / t + 1) ∧
    (¬ t ≤ k * f % t + f →
      (k + 1) * f % t = k * f % t + f ∧ (k + 1) * f / t = k * f / t) := by
  have hdm : t * (k * f / t) + k * f % t = k * f := Nat.div_add_mod (k * f) t
  have hr : k * f % t < t := Nat.mod_lt _ ht
  have hk : (k + 1) * f = k * f + f := by ring
  constructor
  · intro hle
    have hu : (k + 1) * f / t = k * f / t + 1 ∧ (k + 1) * f % t = k * f % t + f - t :=
      (Nat.div_mod_unique ht).mpr ⟨by rw [hk, Nat.mul_add]; omega, by omega⟩
    exact ⟨hu.2, hu.1⟩
  · intro hlt
    have hu : (k + 1) * f / t = k * f / t ∧ (k + 1) * f % t = k * f % t + f :=
      (Nat.div_mod_unique ht).mpr ⟨by rw [hk]; omega, by omega⟩
    exact ⟨hu.2, hu.1⟩

theorem u64_step_exact (f t c : Nat) (hft : f ≤ t) (hb : t + f ≤ UINT64_SIZE)
    (hc : c < t + f) :
    u64add (if t ≤ c then u64sub c t else c) f = (if t ≤ c then c - t else c) + f ∧
    (if t ≤ c then c - t else c) + f < t + f := by
  have hc64 : c < UINT64_SIZE := by omega
  by_cases htc : t ≤ c
  · simp only [htc, if_true, u64sub_of_le c t hc64 htc]
    exact ⟨Nat.mod_eq_of_lt (by omega), by omega⟩
  · simp only [htc, if_false]
    exact ⟨Nat.mod_eq_of_lt (by omega), by omega⟩

end pid_control

namespace pid_control

theorem steady_round {σ : Type} (A : Ambient σ) (f t : Nat) (hS : Steady A f t)
    (hf : f < UINT64_SIZE) (ht : t < UINT64_SIZE) (w : World σ) (c : Nat)
    (hw : w.handler = some { cycleCnt := c, msPerFanCycle := f }) (g : σ → σ) :
    (fire A { w with env := g w.env } ErrorCode.success).handler
        = some { cycleCnt := u64add (if t ≤ c then u64sub c t else c) f,
                 msPerFanCycle := f } ∧
    ∃ evs : List Event,
      (fire A { w with env := g w.env } ErrorCode.success).trace = w.trace ++ evs ∧
      evs.count Event.processThermals = (if t ≤ c then 1 else 0) := by
  obtain ⟨hcan, hman, hfan, hth⟩ := hS
  have hfire : fire A { w with env := g w.env } ErrorCode.success
      = timerCallback A { cycleCnt := c, msPerFanCycle := f }
          { w with env := g w.env, handler := none } ErrorCode.success := by
    simp [fire, hw]
  have hec : ErrorCode.success ≠ ErrorCode.operation_aborted := by decide
  have hm : A.zone.getManualMode
      ({ w with env := g w.env, handler := none } : World σ).env = false := hman _
  have htr := timerCallback_trace A { cycleCnt := c, msPerFanCycle := f }
    { w with env := g w.env, handler := none } ErrorCode.success hec hm
  have hcnt := cycleBody_counter A { cycleCnt := c, msPerFanCycle := f }
    { w with env := g w.env, handler := none } hm
  simp only [hth, hfan, hcan, toUInt64_of_lt t ht, toUInt64_of_lt f hf, Bool.false_eq_true,
    if_false] at htr hcnt
  refine ⟨?_, _, by rw [hfire]; exact htr, ?_⟩
  · rw [hfire, timerCallback_eq, if_neg hec, pidControlLoop_rearm A _ _ (hcan _), hcnt]
    simp [hfan, toUInt64_of_lt f hf]
  · unfold logEvents thermalPass
    split_ifs <;> simp

theorem steady_rounds_closed {σ : Type} (A : Ambient σ) (f t : Nat) (hS : Steady A f t)
    (hf : 0 < f) (hft : f ≤ t) (hb : t + f ≤ UINT64_SIZE) (gs : List (σ → σ)) :
    ∀ (k : Nat) (w : World σ),
      w.handler = some { cycleCnt := k * f % t + f, msPerFanCycle := f } →
      (run A w (autoSteps gs)).handler
          = some { cycleCnt := (k + gs.length) * f % t + f, msPerFanCycle := f } ∧
      ∃ evs : List Event, (run A w (autoSteps gs)).trace = w.trace ++ evs ∧
        evs.count Event.processThermals + k * f / t = (k + gs.length) * f / t := by
  have ht0 : 0 < t := lt_of_lt_of_le hf hft
  have hf64 : f < UINT64_SIZE := by omega
  have ht64 : t < UINT64_SIZE := by omega
  induction gs with
  | nil =>
    intro k w hw
    exact ⟨by simpa [autoSteps, run] using hw, [], by simp [autoSteps, run], by simp⟩
  | cons g gs ih =>
    intro k w hw
    have hr : k * f % t < t := Nat.mod_lt _ ht0
    obtain ⟨hh, evs₁, htr₁, hcount₁⟩ := steady_round A f t hS hf64 ht64 w _ hw g
    obtain ⟨hexact, -⟩ := u64_step_exact f t (k * f % t + f) hft hb (by omega)
    obtain ⟨hyes, hno⟩ := div_mod_step f t k ht0 hft
    have hnext : u64add (if t ≤ k * f % t + f then u64sub (k * f % t + f) t
        else k * f % t + f) f = (k + 1) * f % t + f := by
      rw [hexact]
      by_cases hle : t ≤ k * f % t + f
      · rw [if_pos hle, (hyes hle).1]
      · rw [if_neg hle, (hno hle).1]
    rw [hnext] at hh
    obtain ⟨hh₂, evs₂, htr₂, hcount₂⟩ := ih (k + 1) _ hh
    have hrun : run A w (autoSteps (g :: gs))
        = run A (fire A { w with env := g w.env } ErrorCode.success) (autoSteps gs) := rfl
    have hlen : k + (g :: gs).length = k + 1 + gs.length := by
      simp only [List.length_cons]; omega
    rw [hrun, hlen]
    refine ⟨hh₂, evs₁ ++ evs₂, by rw [htr₂, htr₁, List.append_assoc], ?_⟩
    rw [List.count_append, hcount₁, ← hcount₂]
    by_cases hle : t ≤ k * f % t + f
    · rw [if_pos hle, (hyes hle).2]; omega
    · rw [if_neg hle, (hno hle).2]; omega

end pid_control

namespace pid_control

/-- C18, as stated, fails when `t + f` exceeds `2 ^ 64`: with fan interval
`f = 2 ^ 64 - 2` and thermal interval `t = 2 ^ 64 - 1` (so `0 < f ≤ t`), started
from `cycleCnt = 0`, the counter held after the second firing is
`(f + f) mod 2 ^ 64 = 2 ^ 64 - 4`, not `2 * f - t * floor(f / t) = 2 * f`. -/
theorem thermal_counter_wraps_for_large_intervals :
    (0 : Nat) < 18446744073709551614 ∧
    (18446744073709551614 : Nat) ≤ 18446744073709551615 ∧
    (demoBigAfter 0).handler
      = some { cycleCnt := 0, msPerFanCycle := 18446744073709551614 } ∧
    (demoBigAfter 2).handler
      = some { cycleCnt := 18446744073709551612, msPerFanCycle := 18446744073709551614 } ∧
    (18446744073709551612 : Nat)
      ≠ 2 * 18446744073709551614
          - 18446744073709551615 * ((2 - 1) * 18446744073709551614 / 18446744073709551615) := by
  decide

/-- C18 (amended). Closed form for the thermal schedule. For all fan interval
`f` and thermal interval `t` with `0 < f ≤ t` and `t + f ≤ 2 ^ 64`, for a loop
that is never cancelled and never in manual mode, started through the first call
with `cycleCnt = 0`, and whatever happens to the environment between the
firings: after `n` successful timer firings the number of thermal passes run by
the lambda (not counting the pass of the first call) is `floor((n - 1) * f / t)`
and the counter held for the next firing is
`n * f - t * floor((n - 1) * f / t)`. -/
theorem thermal_schedule_closed_form {σ : Type} (A : Ambient σ) (f t : Nat)
    (hS : Steady A f t) (hf : 0 < f) (hft : f ≤ t) (hb : t + f ≤ UINT64_SIZE)
    (w₀ : World σ) (gs : List (σ → σ)) :
    (newEvents (pidControlLoop A w₀ true 0)
        (run A (pidControlLoop A w₀ true 0) (autoSteps gs))).count Event.processThermals
      = (gs.length - 1) * f / t ∧
    (run A (pidControlLoop A w₀ true 0) (autoSteps gs)).handler
      = some { cycleCnt := gs.length * f - t * ((gs.length - 1) * f / t),
               msPerFanCycle := f } := by
  have ht0 : 0 < t := lt_of_lt_of_le hf hft
  have hf64 : f < UINT64_SIZE := by omega
  have ht64 : t < UINT64_SIZE := by omega
  have h₀ : (pidControlLoop A w₀ true 0).handler
      = some { cycleCnt := 0, msPerFanCycle := f } := by
    rw [pidControlLoop_first A w₀ 0 (hS.1 _)]
    simp [hS.2.2.1, toUInt64_of_lt f hf64]
  cases gs with
  | nil =>
    refine ⟨?_, ?_⟩
    · simp [autoSteps, run, newEvents]
    · simpa [autoSteps, run] using h₀
  | cons g gs =>
    obtain ⟨hh, evs₁, htr₁, hcount₁⟩ :=
      steady_round A f t hS hf64 ht64 (pidControlLoop A w₀ true 0) 0 h₀ g
    have hfirst : u64add (if t ≤ 0 then u64sub 0 t else 0) f = 0 * f % t + f := by
      have : ¬ t ≤ 0 := by omega
      simp only [this, if_false, Nat.zero_mul, Nat.zero_mod, Nat.zero_add]
      show (0 + f) % UINT64_SIZE = f
      rw [Nat.zero_add]
      exact Nat.mod_eq_of_lt hf64
    rw [hfirst] at hh
    obtain ⟨hh₂, evs₂, htr₂, hcount₂⟩ :=
      steady_rounds_closed A f t hS hf hft hb gs 0 _ hh
    have hrun : run A (pidControlLoop A w₀ true 0) (autoSteps (g :: gs))
        = run A (fire A { pidControlLoop A w₀ true 0 with
            env := g (pidControlLoop A w₀ true 0).env } ErrorCode.success)
          (autoSteps gs) := rfl
    have hlen : (g :: gs).length - 1 = gs.length := by simp
    have hdm : t * (gs.length * f / t) + gs.length * f % t = gs.length * f :=
      Nat.div_add_mod _ _
    rw [hrun, hlen]
    refine ⟨?_, ?_⟩
    · rw [newEvents_append _ _ (evs₁ ++ evs₂) (by rw [htr₂, htr₁, List.append_assoc]),
        List.count_append, hcount₁]
      have : ¬ t ≤ 0 := by omega
      simp only [this, if_false, Nat.zero_mul, Nat.zero_div, Nat.zero_add] at hcount₂ ⊢
      omega
    · rw [hh₂]
      have hk : (g :: gs).length * f = gs.length * f + f := by
        simp only [List.length_cons]; ring
      have hz : (0 + gs.length) * f = gs.length * f := by rw [Nat.zero_add]
      rw [hk, hz]
      congr 2
      omega

/-- Witness for C18 (amended) on the steady zone (fan interval 100 ms, thermal
interval 250 ms): after four firings one thermal pass has run and the counter
is 150. -/
theorem thermal_schedule_closed_form_witness :
    Steady steadyAmbient 100 250 ∧ (0 : Nat) < 100 ∧ (100 : Nat) ≤ 250 ∧
    250 + 100 ≤ UINT64_SIZE ∧
    (run steadyAmbient (pidControlLoop steadyAmbient steadyWorld true 0)
      (autoSteps [id, id, id, id])).handler
      = some { cycleCnt := 4 * 100 - 250 * ((4 - 1) * 100 / 250), msPerFanCycle := 100 } :=
  ⟨⟨fun _ => rfl, fun _ => rfl, fun _ => rfl, fun _ => rfl⟩, by decide, by decide, by decide,
   (thermal_schedule_closed_form steadyAmbient 100 250
      ⟨fun _ => rfl, fun _ => rfl, fun _ => rfl, fun _ => rfl⟩ (by decide) (by decide)
      (by decide) steadyWorld [id, id, id, id]).2⟩

end pid_control

namespace pid_control

/-! ## C19 -/

theorem fire_handler {σ : Type} (A : Ambient σ) (w : World σ) (h : Handler)
    (hw : w.handler = some h) (ec : ErrorCode) (hec : ec ≠ ErrorCode.operation_aborted) :
    (fire A w ec).handler =
      if A.isCanceling (cycleBody A h { w with handler := none }).1.env then none
      else some { cycleCnt := (cycleBody A h { w with handler := none }).2,
                  msPerFanCycle := toUInt64 (A.zone.getCycleIntervalTime
                    (cycleBody A h { w with handler := none }).1.env) } := by
  have hfire : fire A w ec = timerCallback A h { w with handler := none } ec := by
    simp [fire, hw]
  rw [hfire, timerCallback_eq, if_neg hec]
  by_cases hc : A.isCanceling (cycleBody A h { w with handler := none }).1.env = true
  · rw [pidControlLoop_canceled A _ false _ hc, if_pos hc]
    exact (cycleBody_expiry A h _).2
  · have hc' : A.isCanceling (cycleBody A h { w with handler := none }).1.env = false := by
      simpa using hc
    rw [pidControlLoop_rearm A _ _ hc', if_neg hc]

theorem cycleBody_counter_bounded {σ : Type} (A : Ambient σ) (f t : Nat)
    (hth : ∀ s, A.zone.getUpdateThermalsCycle s = t)
    (hft : f ≤ t) (hb : t + f < UINT64_SIZE) (h : Handler) (w : World σ)
    (hc : h.cycleCnt < t + f) (hm : h.msPerFanCycle = f) :
    (cycleBody A h w).2 =
        (if A.zone.getManualMode w.env then h.cycleCnt
         else (if t ≤ h.cycleCnt then h.cycleCnt - t else h.cycleCnt) + f) ∧
    (cycleBody A h w).2 < t + f := by
  have ht64 : t < UINT64_SIZE := by omega
  by_cases hman : A.zone.getManualMode w.env = true
  · rw [cycleBody_manual A h w hman]
    simp [hman, hc]
  · have hman' : A.zone.getManualMode w.env = false := by simpa using hman
    obtain ⟨hexact, hlt⟩ := u64_step_exact f t h.cycleCnt hft (le_of_lt hb) hc
    rw [cycleBody_counter A h w hman', hth, toUInt64_of_lt t ht64, hm, hexact]
    simp [hman', hlt]

theorem step_bounded {σ : Type} (A : Ambient σ) (f t : Nat)
    (hfan : ∀ s, A.zone.getCycleIntervalTime s = f)
    (hth : ∀ s, A.zone.getUpdateThermalsCycle s = t)
    (hft : f ≤ t) (hb : t + f < UINT64_SIZE) (w : World σ) (hw : CountBounded f t w)
    (st : Step σ) : CountBounded f t (step A w st) := by
  have hf64 : f < UINT64_SIZE := by omega
  cases st with
  | env g => exact hw
  | fire ec =>
    show CountBounded f t (fire A w ec)
    cases hh : w.handler with
    | none =>
      have : fire A w ec = w := by simp [fire, hh]
      rw [this]; exact hw
    | some h =>
      obtain ⟨hc, hm⟩ := hw h hh
      by_cases hec : ec = ErrorCode.operation_aborted
      · have : fire A w ec = { w with handler := none } := by
          simp [fire, hh, timerCallback, hec]
        rw [this]
        intro h' hh'
        exact absurd hh' (by simp)
      · intro h' hh'
        rw [fire_handler A w h hh ec hec] at hh'
        by_cases hcan : A.isCanceling (cycleBody A h { w with handler := none }).1.env = true
        · rw [if_pos hcan] at hh'
          exact absurd hh' (by simp)
        · rw [if_neg hcan] at hh'
          have heq := Option.some.inj hh'
          subst heq
          exact ⟨(cycleBody_counter_bounded A f t hth hft hb h _ hc hm).2,
            by simp [hfan, toUInt64_of_lt f hf64]⟩

theorem run_bounded {σ : Type} (A : Ambient σ) (f t : Nat)
    (hfan : ∀ s, A.zone.getCycleIntervalTime s = f)
    (hth : ∀ s, A.zone.getUpdateThermalsCycle s = t)
    (hft : f ≤ t) (hb : t + f < UINT64_SIZE) (steps : List (Step σ)) :
    ∀ w : World σ, CountBounded f t w → CountBounded f t (run A w steps) := by
  induction steps with
  | nil => intro w hw; exact hw
  | cons st rest ih =>
    intro w hw
    exact ih (step A w st) (step_bounded A f t hfan hth hft hb w hw st)

/-- C19. Bounded accumulator. For all fan interval `f` and thermal interval `t`
with `f ≤ t` and `t + f < 2 ^ 64` (the values the zone's getters return): a wait
armed by `pidControlLoop` with a counter below `t + f` carries that counter and
the fan interval `f`; and if the
counter carried by the pending wait is below `t + f`, then after any sequence of
timer completions (manual or non-manual firings in any interleaving, with any
error codes) and environment changes, the counter carried by the pending wait
is again below `t + f`. Consequently, in every firing reached, the `uint64_t`
subtraction `cycleCnt -= t` gives exactly `cycleCnt - t` (it is only done when
`t ≤ cycleCnt`) and the addition `cycleCnt += f` gives the exact sum, below
`2 ^ 64`: the counter handed on is `cycleCnt` in a manual firing and
`(cycleCnt - t, if t ≤ cycleCnt, else cycleCnt) + f` otherwise. -/
theorem bounded_accumulator {σ : Type} (A : Ambient σ) (f t : Nat)
    (hfan : ∀ s, A.zone.getCycleIntervalTime s = f)
    (hth : ∀ s, A.zone.getUpdateThermalsCycle s = t)
    (hft : f ≤ t) (hb : t + f < UINT64_SIZE) (w : World σ) (hw : CountBounded f t w) :
    (∀ (w₀ : World σ) (first : Bool) (cycleCnt : Nat), w₀.handler = none →
      cycleCnt < t + f → CountBounded f t (pidControlLoop A w₀ first cycleCnt)) ∧
    (∀ steps : List (Step σ), CountBounded f t (run A w steps)) ∧
    (∀ (steps : List (Step σ)) (h : Handler), (run A w steps).handler = some h →
      h.cycleCnt < t + f ∧
      (t ≤ h.cycleCnt → u64sub h.cycleCnt t = h.cycleCnt - t) ∧
      u64add (if t ≤ h.cycleCnt then u64sub h.cycleCnt t else h.cycleCnt) h.msPerFanCycle
        = (if t ≤ h.cycleCnt then h.cycleCnt - t else h.cycleCnt) + f ∧
      (if t ≤ h.cycleCnt then h.cycleCnt - t else h.cycleCnt) + f < UINT64_SIZE ∧
      (∀ w' : World σ,
        (cycleBody A h w').2 =
          (if A.zone.getManualMode w'.env then h.cycleCnt
           else (if t ≤ h.cycleCnt then h.cycleCnt - t else h.cycleCnt) + f))) := by
  have hall : ∀ steps : List (Step σ), CountBounded f t (run A w steps) :=
    fun steps => run_bounded A f t hfan hth hft hb steps w hw
  have hf64 : f < UINT64_SIZE := by omega
  refine ⟨?_, hall, ?_⟩
  · intro w₀ first cycleCnt hnone hlt h hh
    by_cases hcan : A.isCanceling w₀.env = true
    · rw [pidControlLoop_canceled A w₀ first cycleCnt hcan, hnone] at hh
      exact absurd hh (by simp)
    · have hcan' : A.isCanceling w₀.env = false := by simpa using hcan
      cases first with
      | true =>
        rw [pidControlLoop_first A w₀ cycleCnt hcan'] at hh
        have heq := Option.some.inj hh
        subst heq
        exact ⟨hlt, by simp [hfan, toUInt64_of_lt f hf64]⟩
      | false =>
        rw [pidControlLoop_rearm A w₀ cycleCnt hcan'] at hh
        have heq := Option.some.inj hh
        subst heq
        exact ⟨hlt, by simp [hfan, toUInt64_of_lt f hf64]⟩
  intro steps h hh
  obtain ⟨hc, hm⟩ := hall steps h hh
  obtain ⟨hexact, hlt⟩ := u64_step_exact f t h.cycleCnt hft (le_of_lt hb) hc
  refine ⟨hc, ?_, ?_, ?_, ?_⟩
  · intro htc
    exact u64sub_of_le _ _ (by omega) htc
  · rw [hm]; exact hexact
  · omega
  · intro w'
    exact (cycleBody_counter_bounded A f t hth hft hb h w' hc hm).1

/-- Witness for C19 on the steady zone (fan interval 100 ms, thermal interval
250 ms) started with the counter 0: after three firings and an aborted wait the
bound still holds. -/
theorem bounded_accumulator_witness :
    (100 : Nat) ≤ 250 ∧ 250 + 100 < UINT64_SIZE ∧
    CountBounded 100 250 (pidControlLoop steadyAmbient steadyWorld true 0) ∧
    CountBounded 100 250
      (run steadyAmbient (pidControlLoop steadyAmbient steadyWorld true 0)
        [Step.fire ErrorCode.success, Step.fire ErrorCode.success,
         Step.fire ErrorCode.success]) :=
  ⟨by decide, by decide,
   fun h hh => by
     have : h = { cycleCnt := 0, msPerFanCycle := 100 } := (Option.some.inj hh).symm
     subst this
     exact ⟨by decide, rfl⟩,
   (bounded_accumulator steadyAmbient 100 250 (fun _ => rfl) (fun _ => rfl) (by decide)
      (by decide) (pidControlLoop steadyAmbient steadyWorld true 0)
      (fun h hh => by
        have : h = { cycleCnt := 0, msPerFanCycle := 100 } := (Option.some.inj hh).symm
        subst this
        exact ⟨by decide, rfl⟩)).2.1 _⟩

end pid_control

namespace pid_control

/-! ## C20 -/

theorem fire_manual {σ : Type} (A : Ambient σ) (w : World σ) (h : Handler)
    (hw : w.handler = some h) (ec : ErrorCode) (hec : ec ≠ ErrorCode.operation_aborted)
    (hm : A.zone.getManualMode w.env = true) (hc : A.isCanceling w.env = false) :
    (fire A w ec).handler
      = some { cycleCnt := h.cycleCnt,
               msPerFanCycle := toUInt64 (A.zone.getCycleIntervalTime w.env) } := by
  have hm' : A.zone.getManualMode ({ w with handler := none } : World σ).env = true := hm
  rw [fire_handler A w h hw ec hec, cycleBody_manual A h _ hm']
  simp [hc]

theorem run_allManual {σ : Type} (A : Ambient σ) (c : Nat) (steps : List (Step σ)) :
    ∀ (w : World σ) (m : Nat), w.handler = some { cycleCnt := c, msPerFanCycle := m } →
      allManual A w steps = true →
      ∃ m' : Nat, (run A w steps).handler = some { cycleCnt := c, msPerFanCycle := m' } := by
  induction steps with
  | nil => intro w m hw _; exact ⟨m, hw⟩
  | cons st rest ih =>
    intro w m hw hall
    cases st with
    | env g => exact ih { w with env := g w.env } m hw hall
    | fire ec =>
      simp only [allManual, Bool.and_eq_true, decide_eq_true_eq, Bool.not_eq_true',
        ne_eq] at hall
      obtain ⟨⟨⟨hec, hm⟩, hc⟩, hrest⟩ := hall
      exact ih (fire A w ec) _ (fire_manual A w _ hw ec hec hm hc) hrest

theorem cycleBody_world_of_cycleCnt {σ : Type} (A : Ambient σ) (h h' : Handler) (w : World σ)
    (hc : h'.cycleCnt = h.cycleCnt) : (cycleBody A h' w).1 = (cycleBody A h w).1 := by
  unfold cycleBody
  simp only [hc]
  by_cases hm : A.zone.getManualMode w.env = true
  · simp [hm]
  · simp [hm]

/-- C20. Manual mode freezes the thermal phase. A non-aborted firing in which
`getManualMode()` is true (and the cancel flag false) re-arms the timer with the
`cycleCnt` it started with: the counter is neither incremented by the fan
interval nor reduced by the thermal interval. Hence after any number of
consecutive manual-mode firings, with any changes of the environment in
between, the pending wait carries the same `cycleCnt`; and what a firing does
up to its re-arm (which zone calls it makes, whether the thermal pass runs)
depends on the captures only through `cycleCnt`, so the next non-manual firing
acts as if the manual firings had not happened. -/
theorem manual_mode_freezes_phase {σ : Type} (A : Ambient σ) (h : Handler) (w : World σ)
    (hw : w.handler = some h) :
    (∀ ec : ErrorCode, ec ≠ ErrorCode.operation_aborted →
      A.zone.getManualMode w.env = true → A.isCanceling w.env = false →
      (cycleBody A h w).2 = h.cycleCnt ∧
      (fire A w ec).handler
        = some { cycleCnt := h.cycleCnt,
                 msPerFanCycle := toUInt64 (A.zone.getCycleIntervalTime w.env) }) ∧
    (∀ steps : List (Step σ), allManual A w steps = true →
      ∃ m : Nat, (run A w steps).handler
        = some { cycleCnt := h.cycleCnt, msPerFanCycle := m }) ∧
    (∀ (h' : Handler) (w' : World σ), h'.cycleCnt = h.cycleCnt →
      (cycleBody A h' w').1 = (cycleBody A h w').1 ∧
      (∀ ev ∈ thermalPass,
        (ev ∈ newEvents w' (cycleBody A h' w').1 ↔ ev ∈ newEvents w' (cycleBody A h w').1)) ∧
      (h'.msPerFanCycle = h.msPerFanCycle → cycleBody A h' w' = cycleBody A h w')) := by
  refine ⟨?_, ?_, ?_⟩
  · intro ec hec hm hc
    exact ⟨by rw [cycleBody_manual A h w hm], fire_manual A w h hw ec hec hm hc⟩
  · intro steps hall
    exact run_allManual A h.cycleCnt steps w h.msPerFanCycle hw hall
  · intro h' w' hc
    have hworld := cycleBody_world_of_cycleCnt A h h' w' hc
    refine ⟨hworld, ?_, ?_⟩
    · intro ev _
      rw [hworld]
    · intro hms
      have : h' = h := by
        cases h; cases h'; simp_all
      rw [this]

/-- Witness for C20: the demo zone in manual mode with the counter 300 pending;
after three manual firings the counter is still 300. -/
theorem manual_mode_freezes_phase_witness :
    ({ demoFiring demoManualEnv with handler := some demoHandler } : World DemoEnv).handler
      = some demoHandler ∧
    allManual demoAmbient { demoFiring demoManualEnv with handler := some demoHandler }
      [Step.fire ErrorCode.success, Step.env DemoEnv.tick, Step.fire ErrorCode.success,
       Step.fire (ErrorCode.other 5)] = true ∧
    ∃ m : Nat,
      (run demoAmbient { demoFiring demoManualEnv with handler := some demoHandler }
        [Step.fire ErrorCode.success, Step.env DemoEnv.tick, Step.fire ErrorCode.success,
         Step.fire (ErrorCode.other 5)]).handler
        = some { cycleCnt := demoHandler.cycleCnt, msPerFanCycle := m } :=
  ⟨rfl, by decide,
   (manual_mode_freezes_phase demoAmbient demoHandler
      { demoFiring demoManualEnv with handler := some demoHandler } rfl).2.1 _ (by decide)⟩

end pid_control

/-! # Further properties of the sensor builder -/

namespace sensors

/-! ## C12 -/

/-- C12: the code at the failing input. For a fan whose read path is
externally flagged (and whose write path is a device file with `max > 0`),
`BuildSensors` registers a pluggable sensor constructed with a null read
interface: the `EXTERNAL` case of the switch leaves `ri` unassigned and the
`fan` branch passes it on. The write interface is present. -/
theorem external_fan_has_null_read_interface :
    (BuildSensors demoScheme demoScheme demoExternalFanConfig).sensors
      = [{ type := "fan", name := "fan3",
           sensor := .PluggableSensor "fan3" 0 none
             (some (.SysFsWritePercent "/sys/pwm3" 0 255)) }] ∧
    (∀ reg ∈ (BuildSensors demoScheme demoScheme demoExternalFanConfig).sensors,
      reg.sensor.readInterface = none ∧ reg.sensor.writeInterface ≠ none) := by
  decide

/-! ## C13 -/

theorem buildSensor_unregistered (R W : String → IOInterfaceType) (mgmr : SensorManager)
    (name : String) (info : sensor) (h : isRegisteredType info.type = false) :
    buildSensor R W mgmr (name, info) = mgmr := by
  simp only [isRegisteredType, decide_eq_false_iff_not, not_or] at h
  obtain ⟨h₁, h₂, h₃⟩ := h
  simp [buildSensor, h₁, h₂, h₃]

theorem buildSensor_keys (R W : String → IOInterfaceType) (it : String × sensor) :
    (buildSensor R W { sensors := [] } it).sensors.map Registration.key
      = if isRegisteredType it.2.type then [(it.2.type, it.1)] else [] := by
  obtain ⟨name, info⟩ := it
  by_cases hfan : info.type = "fan"
  · rw [buildSensor_fan R W _ name info hfan]
    simp [isRegisteredType, hfan, SensorManager.addSensor, Registration.key]
  · by_cases ht : info.type = "temp" ∨ info.type = "margin"
    · rw [buildSensor_telemetry R W _ name info ht]
      have hreg : isRegisteredType info.type = true := by
        simp only [isRegisteredType, decide_eq_true_eq]
        exact Or.inr ht
      split_ifs <;> simp [hreg, SensorManager.addSensor, Registration.key]
    · have hreg : isRegisteredType info.type = false := by
        simp only [isRegisteredType, decide_eq_false_iff_not, not_or] at *
        exact ⟨hfan, ht.1, ht.2⟩
      rw [buildSensor_unregistered R W _ name info hreg]
      simp [hreg]

theorem BuildSensors_keys (R W : String → IOInterfaceType) (config : List (String × sensor)) :
    (BuildSensors R W config).sensors.map Registration.key
      = (config.filter (fun it => isRegisteredType it.2.type)).map
          (fun it => (it.2.type, it.1)) := by
  unfold BuildSensors
  rw [foldl_buildSensor]
  simp only [List.nil_append]
  induction config with
  | nil => rfl
  | cons it rest ih =>
    rw [List.map_cons, List.flatten_cons, List.map_append, ih, buildSensor_keys,
      List.filter_cons]
    by_cases hreg : isRegisteredType it.2.type = true
    · simp [hreg]
    · simp [hreg]

/-- C13. Registry contents. `BuildSensors` is a total function of the
configuration (no descriptor aborts the build), and the (category, name) keys it
adds to the manager are, in the order of the map, exactly the (type, name) of
the descriptors whose type is `fan`, `temp` or `margin`: each such descriptor is
added exactly once, under its own type and name, and a descriptor of any other
type leaves the manager unchanged. -/
theorem registry_contents (R W : String → IOInterfaceType) (config : List (String × sensor)) :
    (BuildSensors R W config).sensors.map Registration.key
      = (config.filter (fun it => isRegisteredType it.2.type)).map
          (fun it => (it.2.type, it.1)) ∧
    (∀ (name : String) (info : sensor) (mgmr : SensorManager),
      info.type = "fan" ∨ info.type = "temp" ∨ info.type = "margin" →
      ∃ s : Sensor, buildSensor R W mgmr (name, info)
        = { sensors := mgmr.sensors ++ [{ type := info.type, name := name, sensor := s }] }) ∧
    (∀ (name : String) (info : sensor) (mgmr : SensorManager),
      ¬ (info.type = "fan" ∨ info.type = "temp" ∨ info.type = "margin") →
      buildSensor R W mgmr (name, info) = mgmr) := by
  refine ⟨BuildSensors_keys R W config, ?_, ?_⟩
  · intro name info mgmr h
    by_cases hfan : info.type = "fan"
    · rw [buildSensor_fan R W mgmr name info hfan, ← hfan]
      exact ⟨_, rfl⟩
    · have ht : info.type = "temp" ∨ info.type = "margin" := by
        rcases h with h | h
        · exact absurd h hfan
        · exact h
      rw [buildSensor_telemetry R W mgmr name info ht]
      split_ifs
      · exact ⟨_, rfl⟩
      · exact ⟨_, rfl⟩
  · intro name info mgmr h
    apply buildSensor_unregistered
    simp only [isRegisteredType, decide_eq_false_iff_not]
    exact h

end sensors

namespace sensors

/-- Witness for C13: the keys registered for the demo configuration; the
`voltage` descriptor adds nothing. -/
theorem registry_contents_witness :
    (BuildSensors demoScheme demoScheme demoConfig).sensors.map Registration.key
      = [("fan", "fan0"), ("fan", "fan1"), ("fan", "fan2"), ("temp", "temp0"),
         ("margin", "margin0"), ("temp", "temp1")] :=
  (registry_contents demoScheme demoScheme demoConfig).1

/-! ## C14 -/

/-- C14. Deferred emission for external telemetry. For a descriptor of type
`temp` or `margin` whose read path has the EXTERNAL scheme, the iteration
registers, under the descriptor's type and name, the host sensor
`HostSensor::CreateTemp(name, timeout, HostSensorBus, readpath, defer)` with
`defer = deferSignals = true`; with that flag the test helper `SetupDbusObject`
expects no object-added announcement. For every other read-path scheme the
iteration registers a pluggable sensor instead. Both registrations are in the
manager `BuildSensors` returns for any configuration containing the
descriptor. -/
theorem deferred_external_telemetry (R W : String → IOInterfaceType) (name : String)
    (info : sensor) (ht : info.type = "temp" ∨ info.type = "margin") :
    (R info.readpath = IOInterfaceType.EXTERNAL →
      (∀ mgmr : SensorManager, buildSensor R W mgmr (name, info) =
        mgmr.addSensor info.type name
          (.HostSensor_CreateTemp name info.timeout .HostSensorBus info.readpath true)) ∧
      (∀ config : List (String × sensor), (name, info) ∈ config →
        ({ type := info.type, name := name,
           sensor := .HostSensor_CreateTemp name info.timeout .HostSensorBus info.readpath
             true } : Registration) ∈ (BuildSensors R W config).sensors)) ∧
    deferSignals = true ∧
    (∀ (path intf : String) (properties : List String),
      SdBusCall.sd_bus_emit_object_added path
        ∉ SetupDbusObject deferSignals path intf properties) ∧
    (R info.readpath ≠ IOInterfaceType.EXTERNAL →
      (∀ mgmr : SensorManager, buildSensor R W mgmr (name, info) =
        mgmr.addSensor info.type name
          (.PluggableSensor name info.timeout (readInterface (R info.readpath) name info)
            (some .ReadOnlyNoExcept))) ∧
      (∀ config : List (String × sensor), (name, info) ∈ config →
        ({ type := info.type, name := name,
           sensor := .PluggableSensor name info.timeout
             (readInterface (R info.readpath) name info) (some .ReadOnlyNoExcept) }
          : Registration) ∈ (BuildSensors R W config).sensors)) := by
  refine ⟨?_, rfl, ?_, ?_⟩
  · intro hr
    refine ⟨fun mgmr => by rw [buildSensor_telemetry R W mgmr name info ht, if_pos hr], ?_⟩
    intro config hmem
    rw [mem_BuildSensors]
    refine ⟨(name, info), hmem, ?_⟩
    rw [buildSensor_telemetry R W _ name info ht, if_pos hr]
    simp [SensorManager.addSensor]
  · intro path intf properties
    simp [SetupDbusObject, deferSignals]
  · intro hr
    refine ⟨fun mgmr => by rw [buildSensor_telemetry R W mgmr name info ht, if_neg hr], ?_⟩
    intro config hmem
    rw [mem_BuildSensors]
    refine ⟨(name, info), hmem, ?_⟩
    rw [buildSensor_telemetry R W _ name info ht, if_neg hr]
    simp [SensorManager.addSensor]

/-- Witness for C14: the external margin `margin0` of the demo configuration is
registered as a host sensor with the defer flag set. -/
theorem deferred_external_telemetry_witness :
    (("margin" : String) = "temp" ∨ ("margin" : String) = "margin") ∧
    demoScheme "external" = IOInterfaceType.EXTERNAL ∧
    ({ type := "margin", name := "margin0",
       sensor := .HostSensor_CreateTemp "margin0" 3 .HostSensorBus "external" true }
      : Registration) ∈ (BuildSensors demoScheme demoScheme demoConfig).sensors :=
  ⟨Or.inr rfl, by decide,
   ((deferred_external_telemetry demoScheme demoScheme "margin0"
      { type := "margin", readpath := "external", writepath := "/sys/pwm0",
        min := 0, max := 255, timeout := 3 } (Or.inr rfl)).1 (by decide)).2 demoConfig
      (by decide)⟩

/-! ## C16 -/

/-- C16, as stated, fails for the externally-flagged scheme: for the margin
descriptor `margin0` of the demo configuration (read path external) the switch
on the read-path scheme prepares no read interface at all, and the sensor that
is registered (a host sensor) is constructed without one. -/
theorem external_scheme_prepares_no_read_interface :
    demoScheme "external" = IOInterfaceType.EXTERNAL ∧
    readInterface (demoScheme "external") "margin0"
      { type := "margin", readpath := "external", writepath := "/sys/pwm0",
        min := 0, max := 255, timeout := 3 } = none ∧
    (∀ reg ∈ (BuildSensors demoScheme demoScheme demoConfig).sensors,
      reg.name = "margin0" → reg.sensor.readInterface = none) := by
  decide

/-- C16 (amended). Read-interface selection. The read interface prepared by the
switch on the read-path scheme is `DbusPassive` on the manager's passive bus
with the descriptor's type and name for the DBUSPASSIVE scheme, `SysFsRead` on
the read path for the SYSFS scheme, and `WriteOnly` for every scheme other than
DBUSPASSIVE, SYSFS and EXTERNAL; for the EXTERNAL scheme no read interface is
constructed. The choice depends only on the scheme, the name, the type and the
read path, not on the write path, min, max or timeout. It is the read interface
handed to the pluggable sensor built for a `fan` descriptor and for a `temp` or
`margin` descriptor whose read path is not EXTERNAL; an EXTERNAL `temp` or
`margin` descriptor is built as a host sensor instead. -/
theorem read_interface_selection (R W : String → IOInterfaceType) (name : String)
    (info : sensor) :
    (R info.readpath = IOInterfaceType.DBUSPASSIVE →
      readInterface (R info.readpath) name info
        = some (.DbusPassive .PassiveListeningBus info.type name)) ∧
    (R info.readpath = IOInterfaceType.SYSFS →
      readInterface (R info.readpath) name info = some (.SysFsRead info.readpath)) ∧
    (R info.readpath = IOInterfaceType.EXTERNAL →
      readInterface (R info.readpath) name info = none) ∧
    (R info.readpath ≠ IOInterfaceType.DBUSPASSIVE → R info.readpath ≠ IOInterfaceType.SYSFS →
      R info.readpath ≠ IOInterfaceType.EXTERNAL →
      readInterface (R info.readpath) name info = some .WriteOnly) ∧
    (∀ info' : sensor, info'.type = info.type → info'.readpath = info.readpath →
      readInterface (R info'.readpath) name info' = readInterface (R info.readpath) name info) ∧
    (info.type = "fan" → ∀ mgmr : SensorManager, ∃ wi : Option WriteInterface,
      buildSensor R W mgmr (name, info) =
        mgmr.addSensor info.type name
          (.PluggableSensor name info.timeout (readInterface (R info.readpath) name info) wi)) ∧
    (info.type = "temp" ∨ info.type = "margin" →
      R info.readpath ≠ IOInterfaceType.EXTERNAL → ∀ mgmr : SensorManager,
      buildSensor R W mgmr (name, info) =
        mgmr.addSensor info.type name
          (.PluggableSensor name info.timeout (readInterface (R info.readpath) name info)
            (some .ReadOnlyNoExcept))) ∧
    (info.type = "temp" ∨ info.type = "margin" →
      R info.readpath = IOInterfaceType.EXTERNAL → ∀ mgmr : SensorManager,
      buildSensor R W mgmr (name, info) =
        mgmr.addSensor info.type name
          (.HostSensor_CreateTemp name info.timeout .HostSensorBus info.readpath true)) := by
  refine ⟨?_, ?_, ?_, ?_, ?_, ?_, ?_, ?_⟩
  · intro h; rw [h]; rfl
  · intro h; rw [h]; rfl
  · intro h; rw [h]; rfl
  · intro h₁ h₂ h₃
    cases hR : R info.readpath with
    | DBUSPASSIVE => exact absurd hR h₁
    | EXTERNAL => exact absurd hR h₃
    | SYSFS => exact absurd hR h₂
    | other tag => rfl
  · intro info' hty hrp
    rw [hrp]
    cases R info.readpath <;> simp [readInterface, hty, hrp]
  · intro hfan mgmr
    exact ⟨_, by rw [buildSensor_fan R W mgmr name info hfan, hfan]⟩
  · intro ht hr mgmr
    rw [buildSensor_telemetry R W mgmr name info ht, if_neg hr]
  · intro ht hr mgmr
    rw [buildSensor_telemetry R W mgmr name info ht, if_pos hr]

/-- Witness for C16 (amended): the passive fan `fan2` of the demo
configuration gets `DbusPassive` on the passive bus. -/
theorem read_interface_selection_witness :
    demoScheme "dbus" = IOInterfaceType.DBUSPASSIVE ∧
    readInterface (demoScheme "dbus") "fan2"
        { type := "fan", readpath := "dbus", writepath := "", min := 0, max := 255,
          timeout := 0 }
      = some (.DbusPassive .PassiveListeningBus "fan" "fan2") :=
  ⟨by decide,
   (read_interface_selection demoScheme demoScheme "fan2"
      { type := "fan", readpath := "dbus", writepath := "", min := 0, max := 255,
        timeout := 0 }).1 (by decide)⟩

end sensors

/-! # Properties of the fail-safe logger model -/

namespace pid_control

/-! ## C15 -/

end pid_control

namespace pid_control

end pid_control
